import Mathlib

/-!
Shallow embedding of the investigation orchestration engine of the
PricingAgent repository (src/workflow.py, src/base_agent.py, src/state.py,
src/order_enricher_agent.py, src/database_agent.py, src/splunk_agent.py,
src/supervisor_agent.py, src/run_agent.py), together with theorems settling
the frozen claims about it.

Order identifiers are modelled as lists of characters (`Str`); Python's
`str.replace(".", "")` removes every dot, which on a list of characters is
exactly `List.filter (· ≠ '.')`.
-/

namespace PricingAgent

abbrev Str := List Char

/-- Python truthiness of an optional string: `None` and `""` are falsy. -/
def optTruthy (o : Option Str) : Bool :=
  match o with
  | none => false
  | some s => !s.isEmpty

/-- src/workflow.py needs_enrichment, the dot-removal step
`order_id.replace(".", "")`. Also src/order_enricher_agent.py
OrderEnricherAgent.clean_order_id, which is the same expression. -/
def clean_order_id (s : Str) : Str := s.filter (fun c => c ≠ '.')

/-- src/workflow.py lines 64-69, needs_enrichment: false for an empty id,
else the cleaned id must start with 'D' and have exactly 9 characters. -/
def needs_enrichment (order_id : Str) : Bool :=
  if order_id.isEmpty then false
  else
    let clean_id := clean_order_id order_id
    (match clean_id with
     | [] => false
     | c :: _ => c = 'D') && clean_id.length == 9

/-- src/order_enricher_agent.py validate_order_format: empty, wrong first
character and wrong length each yield a distinct error message. -/
def validate_order_format (order_id : Str) : Bool × String :=
  if order_id.isEmpty then (false, "Order ID is empty")
  else if !(match order_id with | [] => false | c :: _ => c = 'D') then
    (false, "Order ID must start with D")
  else if order_id.length ≠ 9 then (false, "Order ID must be 9 characters")
  else (true, "")

/-- src/database_agent.py lookup_actual_order_id: the simulated lookup drops
the leading 'D' and prepends "ORD" (D12345678 -> ORD12345678). -/
def lookup_actual_order_id (aaa_order_id : Str) : Str :=
  'O' :: 'R' :: 'D' :: aaa_order_id.drop 1

/-- Modelled from the spec wording of the applicability rule, for the
refinement direction of claim C2: after removing dot separators the id
starts with the sentinel prefix character 'D' and is exactly 9 characters
long. -/
def specRequiresEnrichment (order_id : Str) : Prop :=
  (clean_order_id order_id).head? = some 'D' ∧ (clean_order_id order_id).length = 9

instance (s : Str) : Decidable (specRequiresEnrichment s) := by
  unfold specRequiresEnrichment; infer_instance

theorem clean_no_dots (s : Str) : clean_order_id (clean_order_id s) = clean_order_id s := by
  simp [clean_order_id, List.filter_filter]

theorem needs_iff_spec (s : Str) :
    needs_enrichment s = true ↔ specRequiresEnrichment s := by
  unfold needs_enrichment specRequiresEnrichment
  cases s with
  | nil => simp [clean_order_id]
  | cons c t =>
    cases h : clean_order_id (c :: t) with
    | nil => simp [h]
    | cons d u => simp [h, and_comm]

/-! The data model: src/state.py AgentState and the structures threaded
through it. Messages are modelled by the `name` attribute the routing code
reads from them; every message appended by an agent carries that agent's
name. -/

inductive Intent where
  | Knowledge | Data | Investigation | Monitoring | CodeAnalysis | Comparison
deriving DecidableEq, Repr

inductive Phase where
  | primary | comparison
deriving DecidableEq, Repr

inductive AgentName where
  | Supervisor
  | VectorDB_Agent
  | Splunk_Agent
  | Database_Agent
  | DebugAPI_Agent
  | Monitoring_Agent
  | Code_Agent
  | Comparison_Agent
  | Order_Enricher_Agent
  | Summarization_Agent
deriving DecidableEq, Repr

/-- src/query_parameter.py QueryParameters; the Optional[str] fields default
to the empty string, which Python treats as falsy. -/
structure QueryParameters where
  intent : Intent
  order_id : Str := []
  date : Str := []
  comparison_order_id : Str := []
  comparison_date : Str := []
  reasoning : String := ""
deriving DecidableEq, Repr

/-- The record stored by src/base_agent.py _store_findings: exactly the keys
summary, analysis, order_id, timestamp, cache_key, logs_found, enriched. -/
structure FindingRecord where
  summary : String
  analysis : String
  order_id : Str
  timestamp : Nat
  cache_key : Option String
  logs_found : Option Bool
  enriched : Bool
deriving DecidableEq, Repr

/-- Python dict assignment d[k] = v on an insertion-ordered association
list: replace the value in place if the key exists, else append. -/
def dictAssign {K V : Type} [DecidableEq K] (m : List (K × V)) (k : K) (v : V) :
    List (K × V) :=
  if m.any (fun kv => kv.1 = k) then
    m.map (fun kv => if kv.1 = k then (k, v) else kv)
  else m ++ [(k, v)]

/-- Python dict lookup d.get(k). -/
def dictFind {K V : Type} [DecidableEq K] (m : List (K × V)) (k : K) : Option V :=
  (m.find? (fun kv => kv.1 = k)).map (fun kv => kv.2)

/-- src/state.py update_dict: result = \x7b**left\x7d; result.update(right) —
every key of right takes right's value, keys only in left keep left's. -/
def update_dict {K V : Type} [DecidableEq K] (left right : List (K × V)) :
    List (K × V) :=
  right.foldl (fun acc kv => dictAssign acc kv.1 kv.2) left

/-- src/state.py AgentState. The enrichment fields are Optional in Python
and read through .get with defaults; senderField models the "sender" string
field, with none for the initial empty string. -/
structure AgentState where
  messages : List AgentName
  user_query : String
  parameters : Option QueryParameters
  investigation_step : Nat
  current_investigation : Phase
  senderField : Option AgentName
  findings : List (AgentName × FindingRecord)
  comparison_findings : List (AgentName × FindingRecord)
  aaa_order_id : Option Str
  enrichment_flow : Bool
  actual_order_id : Option Str
  comparison_aaa_order_id : Option Str
  comparison_enrichment_flow : Bool
  comparison_actual_order_id : Option Str
  final_answer : String
  error_log : List String
deriving DecidableEq, Repr

/-- The context returned by src/base_agent.py _get_investigation_context;
findings_key is modelled by the phase it selects. -/
structure InvContext where
  order_id : Str
  date : Str
  phaseKey : Phase
  enriched : Bool
deriving DecidableEq, Repr

/-- src/base_agent.py _get_investigation_context lines 75-126: picks the
phase's enrichment fields, prefers the phase's actual_order_id over the
classified id when enrichment completed (flag cleared). -/
def getInvestigationContext (s : AgentState) : InvContext :=
  match s.current_investigation with
  | Phase.comparison =>
    let actual := s.comparison_actual_order_id
    let flow := s.comparison_enrichment_flow
    let base := match s.parameters with | some p => p.comparison_order_id | none => []
    { order_id := if optTruthy actual && !flow then actual.getD [] else base,
      date := match s.parameters with | some p => p.comparison_date | none => [],
      phaseKey := Phase.comparison,
      enriched := optTruthy actual && !flow }
  | Phase.primary =>
    let actual := s.actual_order_id
    let flow := s.enrichment_flow
    let base := match s.parameters with | some p => p.order_id | none => []
    { order_id := if optTruthy actual && !flow then actual.getD [] else base,
      date := match s.parameters with | some p => p.date | none => [],
      phaseKey := Phase.primary,
      enriched := optTruthy actual && !flow }

/-- src/splunk_agent.py _execute_tool lines 122-132: the effective id starts
from the context, then is overridden by state["actual_order_id"] — the
primary phase's field, read without any phase check — whenever that is
truthy. -/
def splunkEffectiveOrderId (s : AgentState) : Str :=
  let ctx := getInvestigationContext s
  match s.actual_order_id with
  | some a => if a.isEmpty then ctx.order_id else a
  | none => ctx.order_id

/-! The router: src/workflow.py. Graph nodes, the backward message scan, and
the three routing functions. -/

inductive Node where
  | supervisor
  | synthesize
  | switch_to_comparison
  | switch_to_comparison_enricher
  | vectordbagent
  | splunkagent
  | databaseagent
  | debugapiagent
  | monitoringagent
  | codeagent
  | comparisonagent
  | orderenricheragent
  | summarizationagent
  | graphEnd
deriving DecidableEq, Repr

/-- src/workflow.py lines 121-127: scan messages backward for the most
recent message whose name is set and is not "Supervisor". -/
def lastNonSupervisor (msgs : List AgentName) : Option AgentName :=
  msgs.reverse.find? (fun n => n ≠ AgentName.Supervisor)

/-- messages[-5:] — the last five entries (all of them when fewer). -/
def recentAgents (msgs : List AgentName) : List AgentName :=
  msgs.drop (msgs.length - 5)

/-- findings.get("Splunk_Agent", \x7b\x7d).get("logs_found", False) with Python
truthiness: a missing record or a None flag both count as False. -/
def splunkLogsFlag (m : List (AgentName × FindingRecord)) : Bool :=
  match dictFind m AgentName.Splunk_Agent with
  | some r => r.logs_found.getD false
  | none => false

/-- src/workflow.py route_from_supervisor lines 72-109. -/
def route_from_supervisor (s : AgentState) : Node :=
  match s.parameters with
  | none => Node.synthesize
  | some params =>
    let intent := params.intent
    let oid := params.order_id
    if (intent = Intent.Investigation ∨ intent = Intent.Comparison ∨ intent = Intent.Data)
        ∧ oid.isEmpty = false ∧ needs_enrichment oid = true then
      Node.orderenricheragent
    else
      match intent with
      | Intent.Knowledge => Node.vectordbagent
      | Intent.Data => Node.splunkagent
      | Intent.Monitoring => Node.monitoringagent
      | Intent.CodeAnalysis =>
        if oid.isEmpty then Node.codeagent else Node.databaseagent
      | Intent.Investigation => Node.splunkagent
      | Intent.Comparison => Node.splunkagent

/-- The COMPARISON FLOW section of route_next_agent (src/workflow.py lines
168-261); none models falling through the section without returning. -/
def comparisonRoutePhase (s : AgentState) (sender : Option AgentName) : Option Node :=
  let comparison_order := match s.parameters with
                          | some p => p.comparison_order_id
                          | none => []
  match s.current_investigation with
  | Phase.primary =>
    match sender with
    | some AgentName.Splunk_Agent =>
      some (if comparison_order.isEmpty = false ∧ needs_enrichment comparison_order = true
            then Node.switch_to_comparison_enricher else Node.switch_to_comparison)
    | some AgentName.Order_Enricher_Agent => some Node.databaseagent
    | some AgentName.Database_Agent =>
      some (if AgentName.Splunk_Agent ∈ recentAgents s.messages then Node.debugapiagent
            else if s.actual_order_id ≠ none ∧ s.enrichment_flow = false then Node.splunkagent
            else Node.debugapiagent)
    | some AgentName.DebugAPI_Agent =>
      some (if comparison_order.isEmpty = false ∧ needs_enrichment comparison_order = true
            then Node.switch_to_comparison_enricher else Node.switch_to_comparison)
    | _ => none
  | Phase.comparison =>
    match sender with
    | some AgentName.Splunk_Agent => some Node.comparisonagent
    | some AgentName.Order_Enricher_Agent => some Node.databaseagent
    | some AgentName.Database_Agent =>
      some (if AgentName.Splunk_Agent ∈ recentAgents s.messages then Node.debugapiagent
            else if s.comparison_actual_order_id ≠ none ∧ s.comparison_enrichment_flow = false
                 then Node.splunkagent
            else Node.debugapiagent)
    | some AgentName.DebugAPI_Agent => some Node.comparisonagent
    | _ => none

/-- The INVESTIGATION FLOW section of route_next_agent (src/workflow.py
lines 268-312). -/
def investigationRoute (s : AgentState) (sender : Option AgentName) : Option Node :=
  match sender with
  | some AgentName.Order_Enricher_Agent => some Node.databaseagent
  | some AgentName.Splunk_Agent =>
    some (if splunkLogsFlag s.findings then Node.summarizationagent else Node.databaseagent)
  | some AgentName.Database_Agent =>
    some (if AgentName.Splunk_Agent ∈ recentAgents s.messages then Node.debugapiagent
          else if s.actual_order_id ≠ none ∧ s.enrichment_flow = false then Node.splunkagent
          else Node.debugapiagent)
  | some AgentName.DebugAPI_Agent => some Node.summarizationagent
  | _ => none

/-- Body of src/workflow.py route_next_agent lines 146-315, after sender and
intent have been computed; unmatched cases of a section fall through, ending
at the summarizationagent fallback. -/
def routeNextCore (s : AgentState) (sender : Option AgentName) (intent : Intent) : Node :=
  if sender = some AgentName.Summarization_Agent then Node.synthesize
  else if intent = Intent.Knowledge ∨ intent = Intent.Data ∨ intent = Intent.Monitoring then
    Node.summarizationagent
  else if intent = Intent.CodeAnalysis then
    if sender = some AgentName.Database_Agent then Node.codeagent
    else if sender = some AgentName.Code_Agent then Node.summarizationagent
    else Node.summarizationagent
  else
    let comparisonResult :=
      if intent = Intent.Comparison then
        match comparisonRoutePhase s sender with
        | some n => some n
        | none =>
          if sender = some AgentName.Comparison_Agent then some Node.summarizationagent
          else none
      else none
    match comparisonResult with
    | some n => n
    | none =>
      let investigationResult :=
        if intent = Intent.Investigation then investigationRoute s sender else none
      match investigationResult with
      | some n => n
      | none => Node.summarizationagent

/-- src/workflow.py route_next_agent lines 115-315: the sender is taken from
the backward message scan, falling back to the sender field, and the intent
defaults to Investigation when parameters are absent. -/
def route_next_agent (s : AgentState) : Node :=
  routeNextCore s
    (match lastNonSupervisor s.messages with
     | some a => some a
     | none => s.senderField)
    (match s.parameters with | some p => p.intent | none => Intent.Investigation)

/-- src/workflow.py db_router lines 338-356: after the database node, route
to splunk when the scan says the enricher just ran, else defer to
route_next_agent. -/
def db_router (s : AgentState) : Node :=
  match lastNonSupervisor s.messages with
  | some AgentName.Order_Enricher_Agent => Node.splunkagent
  | _ => route_next_agent s

/-! Helper lemmas about the router, and concrete states used as witnesses
and counterexamples. -/

theorem comparisonRoutePhase_ne_enricher (s : AgentState) (sd : Option AgentName) :
    comparisonRoutePhase s sd ≠ some Node.orderenricheragent := by
  unfold comparisonRoutePhase
  cases s.current_investigation <;> rcases sd with _ | a <;> try cases a
  all_goals try simp
  all_goals (repeat' split) <;> try simp

theorem investigationRoute_ne_enricher (s : AgentState) (sd : Option AgentName) :
    investigationRoute s sd ≠ some Node.orderenricheragent := by
  unfold investigationRoute
  rcases sd with _ | a <;> try cases a
  all_goals try simp
  all_goals (repeat' split) <;> try simp

theorem routeNextCore_ne_enricher (s : AgentState) (sd : Option AgentName)
    (intent : Intent) : routeNextCore s sd intent ≠ Node.orderenricheragent := by
  unfold routeNextCore
  split
  · simp
  split
  · simp
  split
  · split
    · simp
    · split <;> simp
  by_cases hc : intent = Intent.Comparison
  · subst hc
    simp only [reduceIte]
    rcases h2 : comparisonRoutePhase s sd with _ | n
    · simp only [h2]
      split
      · next n heq =>
          split at heq
          · simp only [Option.some_inj] at heq
            subst heq
            simp
          · simp at heq
      · simp
    · have := comparisonRoutePhase_ne_enricher s sd
      rw [h2] at this
      simp only [h2]
      intro hn
      exact this (by rw [hn])
  · by_cases hi : intent = Intent.Investigation
    · subst hi
      simp only [hc, if_false, reduceIte]
      rcases h3 : investigationRoute s sd with _ | m
      · simp [h3]
      · have := investigationRoute_ne_enricher s sd
        rw [h3] at this
        simp only [h3]
        intro hn
        exact this (by rw [hn])
    · simp [hc, hi]

theorem route_next_ne_enricher (s : AgentState) :
    route_next_agent s ≠ Node.orderenricheragent :=
  routeNextCore_ne_enricher s _ _

theorem investigationRoute_ne_switchEnr (s : AgentState) (sd : Option AgentName) :
    investigationRoute s sd ≠ some Node.switch_to_comparison_enricher := by
  unfold investigationRoute
  rcases sd with _ | a <;> try cases a
  all_goals try simp
  all_goals (repeat' split) <;> try simp

theorem comparisonRoutePhase_switchEnr (s : AgentState) (sd : Option AgentName)
    (h : comparisonRoutePhase s sd = some Node.switch_to_comparison_enricher) :
    needs_enrichment
      (match s.parameters with | some p => p.comparison_order_id | none => []) = true := by
  unfold comparisonRoutePhase at h
  cases hph : s.current_investigation <;> rw [hph] at h <;>
    rcases sd with _ | a <;> try cases a
  all_goals simp_all
  all_goals (repeat' split at h) <;> simp_all

theorem routeNextCore_switchEnr (s : AgentState) (sd : Option AgentName)
    (intent : Intent)
    (h : routeNextCore s sd intent = Node.switch_to_comparison_enricher) :
    needs_enrichment
      (match s.parameters with | some p => p.comparison_order_id | none => []) = true := by
  unfold routeNextCore at h
  split at h
  · simp at h
  split at h
  · simp at h
  split at h
  · split at h
    · simp at h
    · split at h <;> simp at h
  by_cases hc : intent = Intent.Comparison
  · subst hc
    simp only [reduceIte] at h
    rcases h2 : comparisonRoutePhase s sd with _ | n
    · rw [h2] at h
      split at h
      · next n heq =>
          split at heq <;> simp_all
      · simp at h
    · rw [h2] at h
      simp only [] at h
      exact comparisonRoutePhase_switchEnr s sd (by rw [h2, h])
  · by_cases hi : intent = Intent.Investigation
    · subst hi
      simp only [hc, reduceIte] at h
      rcases h3 : investigationRoute s sd with _ | m
      · simp [h3] at h
      · rw [h3] at h
        simp only [] at h
        exact absurd (by rw [h3, h]) (investigationRoute_ne_switchEnr s sd)
    · simp [hc, hi] at h

/-! Extraction lemmas giving the router's decision under explicit
hypotheses about sender, intent and phase. -/

theorem route_next_comparison_primary_splunk (s : AgentState) (p : QueryParameters)
    (hp : s.parameters = some p) (hi : p.intent = Intent.Comparison)
    (hph : s.current_investigation = Phase.primary)
    (hm : lastNonSupervisor s.messages = some AgentName.Splunk_Agent) :
    route_next_agent s =
      if p.comparison_order_id.isEmpty = false ∧
          needs_enrichment p.comparison_order_id = true
      then Node.switch_to_comparison_enricher else Node.switch_to_comparison := by
  simp [route_next_agent, routeNextCore, comparisonRoutePhase, hm, hp, hi, hph]

theorem route_next_comparison_primary_debugapi (s : AgentState) (p : QueryParameters)
    (hp : s.parameters = some p) (hi : p.intent = Intent.Comparison)
    (hph : s.current_investigation = Phase.primary)
    (hm : lastNonSupervisor s.messages = some AgentName.DebugAPI_Agent) :
    route_next_agent s =
      if p.comparison_order_id.isEmpty = false ∧
          needs_enrichment p.comparison_order_id = true
      then Node.switch_to_comparison_enricher else Node.switch_to_comparison := by
  simp [route_next_agent, routeNextCore, comparisonRoutePhase, hm, hp, hi, hph]

theorem route_next_comparison_phase_splunk (s : AgentState) (p : QueryParameters)
    (hp : s.parameters = some p) (hi : p.intent = Intent.Comparison)
    (hph : s.current_investigation = Phase.comparison)
    (hm : lastNonSupervisor s.messages = some AgentName.Splunk_Agent) :
    route_next_agent s = Node.comparisonagent := by
  simp [route_next_agent, routeNextCore, comparisonRoutePhase, hm, hp, hi, hph]

theorem route_next_comparison_phase_debugapi (s : AgentState) (p : QueryParameters)
    (hp : s.parameters = some p) (hi : p.intent = Intent.Comparison)
    (hph : s.current_investigation = Phase.comparison)
    (hm : lastNonSupervisor s.messages = some AgentName.DebugAPI_Agent) :
    route_next_agent s = Node.comparisonagent := by
  simp [route_next_agent, routeNextCore, comparisonRoutePhase, hm, hp, hi, hph]

theorem route_next_after_comparison_agent (s : AgentState)
    (hm : lastNonSupervisor s.messages = some AgentName.Comparison_Agent) :
    route_next_agent s = Node.summarizationagent := by
  unfold route_next_agent routeNextCore
  rw [hm]
  cases hq : s.parameters with
  | none => simp [investigationRoute]
  | some p =>
    cases hI : p.intent <;>
      simp [investigationRoute, comparisonRoutePhase, hI] <;>
      cases s.current_investigation <;> simp

theorem route_next_inv_splunk (s : AgentState) (p : QueryParameters)
    (hp : s.parameters = some p) (hi : p.intent = Intent.Investigation)
    (hm : lastNonSupervisor s.messages = some AgentName.Splunk_Agent) :
    route_next_agent s =
      if splunkLogsFlag s.findings then Node.summarizationagent
      else Node.databaseagent := by
  simp [route_next_agent, routeNextCore, investigationRoute, hm, hp, hi]

theorem route_next_inv_database_recent (s : AgentState) (p : QueryParameters)
    (hp : s.parameters = some p) (hi : p.intent = Intent.Investigation)
    (hm : lastNonSupervisor s.messages = some AgentName.Database_Agent)
    (hr : AgentName.Splunk_Agent ∈ recentAgents s.messages) :
    db_router s = Node.debugapiagent := by
  unfold db_router
  rw [hm]
  simp [route_next_agent, routeNextCore, investigationRoute, hm, hp, hi, hr]

theorem route_next_comparison_primary_ne_comparisonagent (s : AgentState)
    (p : QueryParameters) (hp : s.parameters = some p)
    (hi : p.intent = Intent.Comparison)
    (hph : s.current_investigation = Phase.primary) :
    route_next_agent s ≠ Node.comparisonagent := by
  unfold route_next_agent routeNextCore
  rw [hp]
  simp only [hi, hph, reduceIte]
  split
  · simp
  split
  · simp
  split
  · split
    · simp
    · split <;> simp
  unfold comparisonRoutePhase
  rw [hph]
  rcases lastNonSupervisor s.messages with _ | a
  all_goals rcases hsf : s.senderField with _ | b
  all_goals try cases b
  all_goals try cases a
  all_goals simp_all
  all_goals (repeat' split) <;> simp_all

/-! Concrete states used as witnesses, counterexamples and failing
inputs. -/

def emptyState : AgentState := {
  messages := [], user_query := "", parameters := none,
  investigation_step := 0, current_investigation := Phase.primary,
  senderField := none, findings := [], comparison_findings := [],
  aaa_order_id := none, enrichment_flow := false, actual_order_id := none,
  comparison_aaa_order_id := none, comparison_enrichment_flow := false,
  comparison_actual_order_id := none, final_answer := "", error_log := [] }

def splunkRec (b : Bool) : FindingRecord := {
  summary := "Logs found for A123", analysis := "Logs found for A123",
  order_id := "A123".toList, timestamp := 0, cache_key := none,
  logs_found := some b, enriched := false }

def invParams : QueryParameters :=
  { intent := Intent.Investigation, order_id := "A123".toList,
    date := "2025-01-15".toList }

def invLogsTrueState : AgentState := { emptyState with
  parameters := some invParams,
  messages := [AgentName.Supervisor, AgentName.Splunk_Agent],
  findings := [(AgentName.Splunk_Agent, splunkRec true)] }

def invDbState : AgentState := { emptyState with
  parameters := some invParams,
  messages := [AgentName.Supervisor, AgentName.Splunk_Agent,
               AgentName.Database_Agent],
  findings := [(AgentName.Splunk_Agent, splunkRec false)] }

def cmpParams : QueryParameters :=
  { intent := Intent.Comparison, order_id := "A123".toList,
    date := "2025-01-01".toList, comparison_order_id := "B456".toList,
    comparison_date := "2025-01-02".toList }

/-- A comparison investigation in the primary phase whose log search just
finished with the records-found flag false. -/
def cmpPrimarySplunkState : AgentState := { emptyState with
  parameters := some cmpParams,
  messages := [AgentName.Supervisor, AgentName.Splunk_Agent],
  findings := [(AgentName.Splunk_Agent, splunkRec false)] }

/-- A comparison investigation in the comparison phase after the primary id
D12.345.678 was enriched (primary resolved id ORD12345678); the comparison
id B456 required no enrichment, so every comparison enrichment field is
unset. -/
def cmpPhaseSplunkState : AgentState := { emptyState with
  parameters := some { intent := Intent.Comparison,
                       order_id := "D12.345.678".toList,
                       date := "2025-01-01".toList,
                       comparison_order_id := "B456".toList,
                       comparison_date := "2025-01-02".toList },
  current_investigation := Phase.comparison,
  messages := [AgentName.Supervisor, AgentName.Order_Enricher_Agent,
               AgentName.Database_Agent, AgentName.Splunk_Agent],
  aaa_order_id := some "D12345678".toList,
  enrichment_flow := false,
  actual_order_id := some "ORD12345678".toList }

/-! The claims. -/

/-- C1: in a comparison-phase worker call the claim requires the effective
order id to come only from the comparison phase's enrichment fields or the
classified comparison id. The Splunk worker instead reads the primary
phase's resolved id (state["actual_order_id"], src/splunk_agent.py line
128) without a phase check: on the state above the base context correctly
resolves the comparison id B456, yet the worker's effective id is the
primary phase's ORD12345678 even though every comparison-phase enrichment
field is unset. -/
theorem C1_phase_isolation_violated_eval :
    splunkEffectiveOrderId cmpPhaseSplunkState = "ORD12345678".toList
    ∧ (getInvestigationContext cmpPhaseSplunkState).order_id = "B456".toList
    ∧ cmpPhaseSplunkState.current_investigation = Phase.comparison
    ∧ cmpPhaseSplunkState.comparison_actual_order_id = none
    ∧ cmpPhaseSplunkState.comparison_aaa_order_id = none
    ∧ cmpPhaseSplunkState.comparison_enrichment_flow = false
    ∧ ("ORD12345678".toList ≠ "B456".toList
       ∧ "ORD12345678".toList ≠
           (match cmpPhaseSplunkState.parameters with
            | some p => p.comparison_order_id
            | none => [])) := by
  refine ⟨rfl, rfl, rfl, rfl, rfl, rfl, by decide, by decide⟩

/-- C2: an order identifier requires enrichment iff after removing dots it
starts with D and has exactly 9 characters; D12.345.678 cleans to D12345678
and qualifies, ORD12345678 does not; and the router sends an identifier to
the normalize (order-enricher) worker only when the rule holds — the
supervisor route guards on it and route_next_agent reaches the enricher
only through switch_to_comparison_enricher, guarded on the comparison id. -/
theorem C2_enrichment_applicability :
    (∀ s : Str, needs_enrichment s = true ↔ specRequiresEnrichment s)
    ∧ clean_order_id "D12.345.678".toList = "D12345678".toList
    ∧ needs_enrichment "D12.345.678".toList = true
    ∧ needs_enrichment "ORD12345678".toList = false
    ∧ (∀ s p, s.parameters = some p →
         route_from_supervisor s = Node.orderenricheragent →
         needs_enrichment p.order_id = true)
    ∧ (∀ s : AgentState, route_next_agent s ≠ Node.orderenricheragent)
    ∧ (∀ s p, s.parameters = some p →
         route_next_agent s = Node.switch_to_comparison_enricher →
         needs_enrichment p.comparison_order_id = true) := by
  refine ⟨needs_iff_spec, by decide, by decide, by decide, ?_, route_next_ne_enricher, ?_⟩
  · intro s p hp h
    simp only [route_from_supervisor, hp] at h
    split at h
    · next hcond => exact hcond.2.2
    · cases hI : p.intent <;> simp only [hI] at h <;>
        first
          | (split at h <;> simp at h)
          | simp at h
  · intro s p hp h
    have := routeNextCore_switchEnr s _ _ h
    rw [hp] at this
    exact this

def enrichParams : QueryParameters :=
  { intent := Intent.Investigation, order_id := "D12.345.678".toList }

def enrichSupState : AgentState := { emptyState with parameters := some enrichParams }

theorem C2_enrichment_applicability_witness :
    specRequiresEnrichment "D12.345.678".toList
    ∧ needs_enrichment enrichParams.order_id = true :=
  ⟨(C2_enrichment_applicability.1 _).mp (by decide),
   C2_enrichment_applicability.2.2.2.2.1 enrichSupState enrichParams rfl (by decide)⟩

/-- C3: in a single-order Investigation, after the Splunk worker the router
picks the database worker iff the records-found flag is false (then the
database worker with Splunk in the recent window routes to the simulation
worker debugapiagent); when the flag is true both are skipped and the next
step is summarization. -/
theorem C3_conditional_skip :
    (∀ s p, s.parameters = some p → p.intent = Intent.Investigation →
       lastNonSupervisor s.messages = some AgentName.Splunk_Agent →
       ((route_next_agent s = Node.databaseagent ↔ splunkLogsFlag s.findings = false)
        ∧ (splunkLogsFlag s.findings = true →
            route_next_agent s = Node.summarizationagent)))
    ∧ (∀ s p, s.parameters = some p → p.intent = Intent.Investigation →
       lastNonSupervisor s.messages = some AgentName.Database_Agent →
       AgentName.Splunk_Agent ∈ recentAgents s.messages →
       db_router s = Node.debugapiagent) := by
  constructor
  · intro s p hp hi hm
    rw [route_next_inv_splunk s p hp hi hm]
    cases hf : splunkLogsFlag s.findings <;> simp
  · intro s p hp hi hm hr
    exact route_next_inv_database_recent s p hp hi hm hr

theorem C3_conditional_skip_witness :
    route_next_agent invLogsTrueState = Node.summarizationagent
    ∧ db_router invDbState = Node.debugapiagent := by
  constructor
  · exact (C3_conditional_skip.1 invLogsTrueState invParams rfl rfl (by decide)).2
      (by decide)
  · exact C3_conditional_skip.2 invDbState invParams rfl rfl (by decide) (by decide)

/-- C4 counterexample: in a Comparison investigation, primary phase, the
log-search worker just completed with records-found false; the claim
requires the database (then simulation) workers next, but the router
switches to the comparison phase immediately, never consulting the flag. -/
theorem C4_comparison_skips_chain_counterexample :
    splunkLogsFlag cmpPrimarySplunkState.findings = false
    ∧ route_next_agent cmpPrimarySplunkState = Node.switch_to_comparison
    ∧ route_next_agent cmpPrimarySplunkState ≠ Node.databaseagent
    ∧ route_next_agent cmpPrimarySplunkState ≠ Node.debugapiagent := by
  refine ⟨rfl, by decide, by decide, by decide⟩

/-- C4 amended: in a Comparison investigation the router runs log-search
once per phase; after the primary phase's log-search (or simulation worker)
it switches phase regardless of the records-found flag — choosing the
enricher entry iff the comparison id needs enrichment — after the
comparison phase's log-search (or simulation worker) it routes straight to
the differencing worker, the differencing worker never runs during the
primary phase, and it is followed by summarization. -/
theorem C4_comparison_routing_amended :
    (∀ s p, s.parameters = some p → p.intent = Intent.Comparison →
       s.current_investigation = Phase.primary →
       lastNonSupervisor s.messages = some AgentName.Splunk_Agent →
       route_next_agent s =
         if p.comparison_order_id.isEmpty = false ∧
             needs_enrichment p.comparison_order_id = true
         then Node.switch_to_comparison_enricher else Node.switch_to_comparison)
    ∧ (∀ s p, s.parameters = some p → p.intent = Intent.Comparison →
       s.current_investigation = Phase.primary →
       lastNonSupervisor s.messages = some AgentName.DebugAPI_Agent →
       route_next_agent s =
         if p.comparison_order_id.isEmpty = false ∧
             needs_enrichment p.comparison_order_id = true
         then Node.switch_to_comparison_enricher else Node.switch_to_comparison)
    ∧ (∀ s p, s.parameters = some p → p.intent = Intent.Comparison →
       s.current_investigation = Phase.comparison →
       lastNonSupervisor s.messages = some AgentName.Splunk_Agent →
       route_next_agent s = Node.comparisonagent)
    ∧ (∀ s p, s.parameters = some p → p.intent = Intent.Comparison →
       s.current_investigation = Phase.comparison →
       lastNonSupervisor s.messages = some AgentName.DebugAPI_Agent →
       route_next_agent s = Node.comparisonagent)
    ∧ (∀ s p, s.parameters = some p → p.intent = Intent.Comparison →
       s.current_investigation = Phase.primary →
       route_next_agent s ≠ Node.comparisonagent)
    ∧ (∀ s : AgentState, lastNonSupervisor s.messages =
         some AgentName.Comparison_Agent →
       route_next_agent s = Node.summarizationagent) :=
  ⟨route_next_comparison_primary_splunk,
   route_next_comparison_primary_debugapi,
   route_next_comparison_phase_splunk,
   route_next_comparison_phase_debugapi,
   route_next_comparison_primary_ne_comparisonagent,
   route_next_after_comparison_agent⟩

theorem C4_comparison_routing_amended_witness :
    route_next_agent cmpPrimarySplunkState = Node.switch_to_comparison
    ∧ route_next_agent cmpPhaseSplunkState = Node.comparisonagent := by
  constructor
  · have h := C4_comparison_routing_amended.1 cmpPrimarySplunkState cmpParams
      rfl rfl rfl (by decide)
    rw [h]
    decide
  · exact C4_comparison_routing_amended.2.2.1 cmpPhaseSplunkState _ rfl rfl rfl
      (by decide)

/-- C10: an identifier that requires enrichment resolves (via the database
lookup ORD ++ the 8 characters after the D) to an identifier that can never
itself require enrichment: needs_enrichment of normalize-then-resolve is
always false. -/
theorem C10_resolved_id_not_reenriched :
    ∀ s : Str, needs_enrichment s = true →
      needs_enrichment (lookup_actual_order_id (clean_order_id s)) = false := by
  intro s _
  unfold lookup_actual_order_id needs_enrichment
  simp [clean_order_id, List.filter]

theorem C10_resolved_id_not_reenriched_witness :
    needs_enrichment "D12.345.678".toList = true
    ∧ needs_enrichment
        (lookup_actual_order_id (clean_order_id "D12.345.678".toList)) = false :=
  ⟨by decide, C10_resolved_id_not_reenriched "D12.345.678".toList (by decide)⟩

/-! The execution model: one run of the compiled graph. Collaborator
behaviour (classification result, each tool call's success, the stub log
search's records-found flag, LLM texts, clock readings) is supplied by an
oracle, indexed by the message count at call time; the stub search in
src/splunk_agent.py always reports logs_found=True, and the oracle
generalises over both values so every result below covers the stub and any
real collaborator. The execution wrapper's caching and reflection branches
only influence which findings text is produced, which the oracle already
ranges over; its store/append effects and the error path are modelled
exactly. -/

/-- One worker invocation's environment-determined data. -/
structure AgentOutcome where
  fails : Bool
  logsFound : Bool
  text : String
  analysisText : String
  time : Nat

structure Oracle where
  classify : Option QueryParameters
  currentDate : Str
  outcome : Nat → AgentOutcome

/-- src/query_parameter.py ensure_dates_set. -/
def ensure_dates_set (today : Str) (p : QueryParameters) : QueryParameters :=
  let p1 := if (p.intent = Intent.Investigation ∨ p.intent = Intent.Data)
                ∧ p.order_id.isEmpty = false ∧ p.date.isEmpty = true
            then { p with date := today } else p
  let p2 := if p1.intent = Intent.Comparison
                ∧ p1.order_id.isEmpty = false ∧ p1.date.isEmpty = true
            then { p1 with date := today } else p1
  if p2.intent = Intent.Comparison
      ∧ p2.comparison_order_id.isEmpty = false ∧ p2.comparison_date.isEmpty = true
  then { p2 with comparison_date := today } else p2

/-- src/supervisor_agent.py analyze_query: on success store the classified
parameters (dates ensured) and append the supervisor's message; on
classification failure substitute the fallback parameter set and append
nothing (the failure branch returns an empty message list). -/
def supervisorNode (o : Oracle) (s : AgentState) : AgentState :=
  match o.classify with
  | some p =>
    { s with parameters := some (ensure_dates_set o.currentDate p),
             messages := s.messages ++ [AgentName.Supervisor] }
  | none =>
    { s with parameters := some { intent := Intent.Knowledge,
                                  date := o.currentDate,
                                  reasoning := "Fallback due to error" } }

/-- src/workflow.py switch_to_comparison / switch_to_comparison_enricher
lines 22-43: the transition node returns only the new phase, a zero step
counter and a messages pass-through; no other field is written. -/
def switchNode (s : AgentState) : AgentState :=
  { s with current_investigation := Phase.comparison, investigation_step := 0 }

/-- Store a finding under the phase selected by the context's findings_key
(src/base_agent.py _store_findings: state[findings_key][self.name] = record). -/
def setPhaseFindings (s : AgentState) (ph : Phase) (nm : AgentName)
    (r : FindingRecord) : AgentState :=
  match ph with
  | Phase.primary => { s with findings := dictAssign s.findings nm r }
  | Phase.comparison =>
    { s with comparison_findings := dictAssign s.comparison_findings nm r }

/-- The _execute_tool of each agent, reduced to its state writes, summary
text and routing flag. Order_Enricher_Agent and Database_Agent write the
phase enrichment fields exactly as src/order_enricher_agent.py and
src/database_agent.py do; Splunk_Agent computes its effective id (including
the unconditional primary-field override) and reports the oracle's
records-found flag; the remaining agents are stubs/LLM collaborators whose
texts come from the oracle and which write no state fields. -/
def toolRun (oc : AgentOutcome) (nm : AgentName) (ctx : InvContext)
    (s : AgentState) : AgentState × String × Option Bool :=
  match nm with
  | AgentName.Order_Enricher_Agent =>
    let oid := match s.current_investigation, s.parameters with
               | Phase.comparison, some p => p.comparison_order_id
               | Phase.primary, some p => p.order_id
               | _, none => []
    if oid.isEmpty then (s, "Error: No order ID provided", none)
    else
      let cleaned := clean_order_id oid
      let v := validate_order_format cleaned
      if v.1 = false then (s, "Validation failed: " ++ v.2, none)
      else
        match s.current_investigation with
        | Phase.comparison =>
          ({ s with comparison_aaa_order_id := some cleaned,
                    comparison_enrichment_flow := true },
           "Enrichment prepared", none)
        | Phase.primary =>
          ({ s with aaa_order_id := some cleaned, enrichment_flow := true },
           "Enrichment prepared", none)
  | AgentName.Database_Agent =>
    let flow := match s.current_investigation with
                | Phase.comparison => s.comparison_enrichment_flow
                | Phase.primary => s.enrichment_flow
    let aaa := match s.current_investigation with
               | Phase.comparison => s.comparison_aaa_order_id
               | Phase.primary => s.aaa_order_id
    if flow then
      if optTruthy aaa = false then
        (s, "AAA Order ID required for enrichment lookup", none)
      else
        let actual := lookup_actual_order_id (aaa.getD [])
        match s.current_investigation with
        | Phase.comparison =>
          ({ s with comparison_actual_order_id := some actual,
                    comparison_enrichment_flow := false },
           "Enrichment lookup completed", none)
        | Phase.primary =>
          ({ s with actual_order_id := some actual, enrichment_flow := false },
           "Enrichment lookup completed", none)
    else
      let oid0 := ctx.order_id
      let oid := if oid0.isEmpty then
                   (match s.current_investigation with
                    | Phase.comparison => s.comparison_actual_order_id.getD []
                    | Phase.primary => s.actual_order_id.getD [])
                 else oid0
      if oid.isEmpty then (s, "Order ID required for database lookup", none)
      else (s, "Database records retrieved", none)
  | AgentName.Splunk_Agent =>
    let effective := splunkEffectiveOrderId s
    (s, (if oc.logsFound then "Logs found" else "Logs NOT found")
          ++ String.mk effective,
     some oc.logsFound)
  | _ => (s, oc.text, none)

/-- src/base_agent.py execute, reduced to its state effects: on success
store the FindingRecord and append the agent's message; on a raised tool
exception append an error_log entry, append the agent's message and store
the degraded record (summary and analysis default to "" because
_store_findings reads keys the error findings dict lacks). -/
def execAgent (o : Oracle) (nm : AgentName) (s : AgentState) : AgentState :=
  let ctx := getInvestigationContext s
  let oc := o.outcome s.messages.length
  if oc.fails then
    let rec0 : FindingRecord :=
      { summary := "", analysis := "", order_id := ctx.order_id,
        timestamp := oc.time, cache_key := none, logs_found := none,
        enriched := ctx.enriched }
    let s1 := setPhaseFindings s ctx.phaseKey nm rec0
    { s1 with error_log := s1.error_log ++ [oc.text],
              messages := s1.messages ++ [nm] }
  else
    let t := toolRun oc nm ctx s
    let rec1 : FindingRecord :=
      { summary := t.2.1, analysis := oc.analysisText, order_id := ctx.order_id,
        timestamp := oc.time, cache_key := none, logs_found := t.2.2,
        enriched := ctx.enriched }
    let s1 := setPhaseFindings t.1 ctx.phaseKey nm rec1
    { s1 with messages := s1.messages ++ [nm] }

/-- One line of the _simple_synthesis fallback (src/supervisor_agent.py
_simple_synthesis); the record always carries a summary key, so the
analysis alternative never fires. -/
def agentDisplay : AgentName → String
  | AgentName.Supervisor => "Supervisor"
  | AgentName.VectorDB_Agent => "VectorDB_Agent"
  | AgentName.Splunk_Agent => "Splunk_Agent"
  | AgentName.Database_Agent => "Database_Agent"
  | AgentName.DebugAPI_Agent => "DebugAPI_Agent"
  | AgentName.Monitoring_Agent => "Monitoring_Agent"
  | AgentName.Code_Agent => "Code_Agent"
  | AgentName.Comparison_Agent => "Comparison_Agent"
  | AgentName.Order_Enricher_Agent => "Order_Enricher_Agent"
  | AgentName.Summarization_Agent => "Summarization_Agent"

def findingLine (kv : AgentName × FindingRecord) : String :=
  "**" ++ agentDisplay kv.1 ++ ":** " ++ kv.2.summary

/-- Python "\n\n".join. -/
def joinLines : List String → String
  | [] => ""
  | [l] => l
  | l :: ls => l ++ "\n\n" ++ joinLines ls

/-- src/supervisor_agent.py _simple_synthesis over the primary findings. -/
def simpleSynthesis (s : AgentState) : String :=
  let lines := s.findings.map findingLine
  if lines.isEmpty then "No findings available" else joinLines lines

/-- src/supervisor_agent.py synthesize_findings. The full_summary and
raw_data branches can never fire: _store_findings stores only the fixed
FindingRecord keys, so the Summarization_Agent record has neither key and
the _simple_synthesis fallback is always taken. A supervisor-named message
is appended. -/
def synthesizeFindings (s : AgentState) : AgentState :=
  { s with final_answer := simpleSynthesis s,
           messages := s.messages ++ [AgentName.Supervisor] }

/-- src/run_agent.py create_initial_state lines 33-53; the comparison
enrichment fields are absent from the initial dict, i.e. unset. -/
def create_initial_state (q : String) : AgentState :=
  { messages := [], user_query := q,
    parameters := some { intent := Intent.Investigation, reasoning := "Initial state" },
    investigation_step := 0, current_investigation := Phase.primary,
    senderField := none, findings := [], comparison_findings := [],
    aaa_order_id := none, enrichment_flow := false, actual_order_id := none,
    comparison_aaa_order_id := none, comparison_enrichment_flow := false,
    comparison_actual_order_id := none, final_answer := "", error_log := [] }

/-- Fuelled run of the compiled graph from a node: agent nodes execute then
route (the database node through db_router, per the special conditional
edge), transition nodes take their fixed edges, synthesize is terminal. -/
def runLoop (o : Oracle) : Nat → AgentState → Node → AgentState × Node
  | 0, s, nd => (s, nd)
  | n+1, s, nd =>
    match nd with
    | Node.graphEnd => (s, Node.graphEnd)
    | Node.synthesize => runLoop o n (synthesizeFindings s) Node.graphEnd
    | Node.supervisor =>
      let s1 := supervisorNode o s
      runLoop o n s1 (route_from_supervisor s1)
    | Node.switch_to_comparison => runLoop o n (switchNode s) Node.splunkagent
    | Node.switch_to_comparison_enricher =>
      runLoop o n (switchNode s) Node.orderenricheragent
    | Node.vectordbagent =>
      let s1 := execAgent o AgentName.VectorDB_Agent s
      runLoop o n s1 (route_next_agent s1)
    | Node.splunkagent =>
      let s1 := execAgent o AgentName.Splunk_Agent s
      runLoop o n s1 (route_next_agent s1)
    | Node.databaseagent =>
      let s1 := execAgent o AgentName.Database_Agent s
      runLoop o n s1 (db_router s1)
    | Node.debugapiagent =>
      let s1 := execAgent o AgentName.DebugAPI_Agent s
      runLoop o n s1 (route_next_agent s1)
    | Node.monitoringagent =>
      let s1 := execAgent o AgentName.Monitoring_Agent s
      runLoop o n s1 (route_next_agent s1)
    | Node.codeagent =>
      let s1 := execAgent o AgentName.Code_Agent s
      runLoop o n s1 (route_next_agent s1)
    | Node.comparisonagent =>
      let s1 := execAgent o AgentName.Comparison_Agent s
      runLoop o n s1 (route_next_agent s1)
    | Node.orderenricheragent =>
      let s1 := execAgent o AgentName.Order_Enricher_Agent s
      runLoop o n s1 (route_next_agent s1)
    | Node.summarizationagent =>
      let s1 := execAgent o AgentName.Summarization_Agent s
      runLoop o n s1 (route_next_agent s1)

/-- The run from a node terminates at the graph end with a non-empty final
answer. -/
def Terminates (o : Oracle) (n : Nat) (s : AgentState) (nd : Node) : Prop :=
  (runLoop o n s nd).2 = Node.graphEnd ∧ (runLoop o n s nd).1.final_answer ≠ ""

/-! Frame and bookkeeping lemmas for the execution model. -/

theorem toolRun_frame (oc : AgentOutcome) (nm : AgentName) (ctx : InvContext)
    (s : AgentState) :
    (toolRun oc nm ctx s).1.messages = s.messages
    ∧ (toolRun oc nm ctx s).1.parameters = s.parameters
    ∧ (toolRun oc nm ctx s).1.current_investigation = s.current_investigation
    ∧ (toolRun oc nm ctx s).1.findings = s.findings
    ∧ (toolRun oc nm ctx s).1.comparison_findings = s.comparison_findings
    ∧ (toolRun oc nm ctx s).1.error_log = s.error_log
    ∧ (toolRun oc nm ctx s).1.final_answer = s.final_answer := by
  cases nm <;> simp only [toolRun] <;> (repeat' split) <;> simp

theorem setPhaseFindings_frame (s : AgentState) (ph : Phase) (nm : AgentName)
    (r : FindingRecord) :
    (setPhaseFindings s ph nm r).messages = s.messages
    ∧ (setPhaseFindings s ph nm r).parameters = s.parameters
    ∧ (setPhaseFindings s ph nm r).current_investigation = s.current_investigation
    ∧ (setPhaseFindings s ph nm r).error_log = s.error_log
    ∧ (setPhaseFindings s ph nm r).final_answer = s.final_answer := by
  cases ph <;> simp [setPhaseFindings]

theorem execAgent_messages (o : Oracle) (nm : AgentName) (s : AgentState) :
    (execAgent o nm s).messages = s.messages ++ [nm] := by
  unfold execAgent
  dsimp only
  split <;>
    simp [(setPhaseFindings_frame _ _ _ _).1, (toolRun_frame _ _ _ _).1]

theorem execAgent_parameters (o : Oracle) (nm : AgentName) (s : AgentState) :
    (execAgent o nm s).parameters = s.parameters := by
  unfold execAgent
  dsimp only
  split <;>
    simp [(setPhaseFindings_frame _ _ _ _).2.1, (toolRun_frame _ _ _ _).2.1]

theorem execAgent_phase (o : Oracle) (nm : AgentName) (s : AgentState) :
    (execAgent o nm s).current_investigation = s.current_investigation := by
  unfold execAgent
  dsimp only
  split <;>
    simp [(setPhaseFindings_frame _ _ _ _).2.2.1, (toolRun_frame _ _ _ _).2.2.1]

theorem lastNonSupervisor_append (ms : List AgentName) (a : AgentName)
    (ha : a ≠ AgentName.Supervisor) :
    lastNonSupervisor (ms ++ [a]) = some a := by
  simp [lastNonSupervisor, List.find?_cons, ha]

theorem db_router_after_db (s : AgentState)
    (hm : lastNonSupervisor s.messages = some AgentName.Database_Agent) :
    db_router s = route_next_agent s := by
  unfold db_router
  rw [hm]

theorem route_next_after_summarization (s : AgentState)
    (hm : lastNonSupervisor s.messages = some AgentName.Summarization_Agent) :
    route_next_agent s = Node.synthesize := by
  simp [route_next_agent, routeNextCore, hm]

theorem route_next_simple (s : AgentState) (p : QueryParameters) (a : AgentName)
    (hp : s.parameters = some p)
    (hi : p.intent = Intent.Knowledge ∨ p.intent = Intent.Data ∨
          p.intent = Intent.Monitoring)
    (hm : lastNonSupervisor s.messages = some a)
    (ha : a ≠ AgentName.Summarization_Agent) :
    route_next_agent s = Node.summarizationagent := by
  simp [route_next_agent, routeNextCore, hm, hp, ha, hi]

theorem route_next_codeanalysis_code (s : AgentState) (p : QueryParameters)
    (hp : s.parameters = some p) (hi : p.intent = Intent.CodeAnalysis)
    (hm : lastNonSupervisor s.messages = some AgentName.Code_Agent) :
    route_next_agent s = Node.summarizationagent := by
  simp [route_next_agent, routeNextCore, hm, hp, hi]

theorem route_next_codeanalysis_db (s : AgentState) (p : QueryParameters)
    (hp : s.parameters = some p) (hi : p.intent = Intent.CodeAnalysis)
    (hm : lastNonSupervisor s.messages = some AgentName.Database_Agent) :
    route_next_agent s = Node.codeagent := by
  simp [route_next_agent, routeNextCore, hm, hp, hi]

theorem route_next_inv_enricher (s : AgentState) (p : QueryParameters)
    (hp : s.parameters = some p) (hi : p.intent = Intent.Investigation)
    (hm : lastNonSupervisor s.messages = some AgentName.Order_Enricher_Agent) :
    route_next_agent s = Node.databaseagent := by
  simp [route_next_agent, routeNextCore, investigationRoute, hm, hp, hi]

theorem route_next_cmp_enricher (s : AgentState) (p : QueryParameters)
    (hp : s.parameters = some p) (hi : p.intent = Intent.Comparison)
    (hm : lastNonSupervisor s.messages = some AgentName.Order_Enricher_Agent) :
    route_next_agent s = Node.databaseagent := by
  cases hph : s.current_investigation <;>
    simp [route_next_agent, routeNextCore, comparisonRoutePhase, hm, hp, hi, hph]

theorem route_next_inv_database (s : AgentState) (p : QueryParameters)
    (hp : s.parameters = some p) (hi : p.intent = Intent.Investigation)
    (hm : lastNonSupervisor s.messages = some AgentName.Database_Agent) :
    route_next_agent s =
      if AgentName.Splunk_Agent ∈ recentAgents s.messages then Node.debugapiagent
      else if s.actual_order_id ≠ none ∧ s.enrichment_flow = false then Node.splunkagent
      else Node.debugapiagent := by
  simp only [route_next_agent, routeNextCore, investigationRoute, hm, hp, hi]
  simp

theorem route_next_cmp_database_primary (s : AgentState) (p : QueryParameters)
    (hp : s.parameters = some p) (hi : p.intent = Intent.Comparison)
    (hph : s.current_investigation = Phase.primary)
    (hm : lastNonSupervisor s.messages = some AgentName.Database_Agent) :
    route_next_agent s =
      if AgentName.Splunk_Agent ∈ recentAgents s.messages then Node.debugapiagent
      else if s.actual_order_id ≠ none ∧ s.enrichment_flow = false then Node.splunkagent
      else Node.debugapiagent := by
  simp only [route_next_agent, routeNextCore, comparisonRoutePhase, hm, hp, hi, hph]
  simp

theorem route_next_cmp_database_comparison (s : AgentState) (p : QueryParameters)
    (hp : s.parameters = some p) (hi : p.intent = Intent.Comparison)
    (hph : s.current_investigation = Phase.comparison)
    (hm : lastNonSupervisor s.messages = some AgentName.Database_Agent) :
    route_next_agent s =
      if AgentName.Splunk_Agent ∈ recentAgents s.messages then Node.debugapiagent
      else if s.comparison_actual_order_id ≠ none ∧ s.comparison_enrichment_flow = false
           then Node.splunkagent
      else Node.debugapiagent := by
  simp only [route_next_agent, routeNextCore, comparisonRoutePhase, hm, hp, hi, hph]
  simp

theorem route_next_inv_debugapi (s : AgentState) (p : QueryParameters)
    (hp : s.parameters = some p) (hi : p.intent = Intent.Investigation)
    (hm : lastNonSupervisor s.messages = some AgentName.DebugAPI_Agent) :
    route_next_agent s = Node.summarizationagent := by
  simp [route_next_agent, routeNextCore, investigationRoute, hm, hp, hi]

theorem route_next_codeanalysis_enricher (s : AgentState) (p : QueryParameters)
    (hp : s.parameters = some p) (hi : p.intent = Intent.CodeAnalysis)
    (hm : lastNonSupervisor s.messages = some AgentName.Order_Enricher_Agent) :
    route_next_agent s = Node.summarizationagent := by
  simp [route_next_agent, routeNextCore, hm, hp, hi]

theorem mem_recent_append2 (ms : List AgentName) (a b : AgentName) :
    a ∈ recentAgents (ms ++ [a, b]) := by
  unfold recentAgents
  have hle : (ms ++ [a, b]).length - 5 ≤ ms.length := by
    simp only [List.length_append, List.length_cons, List.length_nil]
    omega
  rw [List.drop_append_of_le_length hle]
  simp

/-! Non-emptiness of the synthesised final answer. -/

theorem findingLine_ne (kv : AgentName × FindingRecord) : findingLine kv ≠ "" := by
  intro h
  have hlen := congrArg String.length h
  rw [findingLine] at hlen
  simp only [String.length_append] at hlen
  have h2 : ("**" : String).length = 2 := rfl
  have h3 : (":** " : String).length = 4 := rfl
  have h4 : ("" : String).length = 0 := rfl
  omega

theorem joinLines_ne (l : List String) (hl : ∀ x ∈ l, x ≠ "") (hne : l ≠ []) :
    joinLines l ≠ "" := by
  match l with
  | [] => exact absurd rfl hne
  | [a] => exact hl a (by simp)
  | a :: b :: t =>
    intro h
    have hlen := congrArg String.length h
    simp only [joinLines, String.length_append] at hlen
    have h2 : ("\n\n" : String).length = 2 := rfl
    have h4 : ("" : String).length = 0 := rfl
    omega

theorem simpleSynthesis_ne (s : AgentState) : simpleSynthesis s ≠ "" := by
  unfold simpleSynthesis
  dsimp only
  split
  · intro h
    exact absurd h (by decide)
  · next hif =>
      apply joinLines_ne
      · intro x hx
        rcases List.mem_map.mp hx with ⟨kv, _, rfl⟩
        exact findingLine_ne kv
      · intro h
        rw [h] at hif
        simp at hif

/-! The termination chain: from each node, under the intent/phase facts that
hold there, the run reaches the graph end with a non-empty final answer. -/

theorem runLoop_graphEnd (o : Oracle) (n : Nat) (s : AgentState) :
    runLoop o n s Node.graphEnd = (s, Node.graphEnd) := by
  cases n <;> rfl

theorem term_synth (o : Oracle) (n : Nat) (s : AgentState) :
    Terminates o (n+1) s Node.synthesize := by
  have h1 : runLoop o (n+1) s Node.synthesize =
      runLoop o n (synthesizeFindings s) Node.graphEnd := rfl
  unfold Terminates
  rw [h1, runLoop_graphEnd]
  exact ⟨rfl, simpleSynthesis_ne s⟩

theorem term_summ (o : Oracle) (n : Nat) (s : AgentState) :
    Terminates o (n+2) s Node.summarizationagent := by
  have h1 : runLoop o (n+2) s Node.summarizationagent =
      runLoop o (n+1) (execAgent o AgentName.Summarization_Agent s)
        (route_next_agent (execAgent o AgentName.Summarization_Agent s)) := rfl
  have hr : route_next_agent (execAgent o AgentName.Summarization_Agent s) =
      Node.synthesize := by
    apply route_next_after_summarization
    rw [execAgent_messages]
    exact lastNonSupervisor_append _ _ (by simp)
  unfold Terminates
  rw [h1, hr]
  exact term_synth o n _

theorem term_cmpAgent (o : Oracle) (n : Nat) (s : AgentState) :
    Terminates o (n+3) s Node.comparisonagent := by
  have h1 : runLoop o (n+3) s Node.comparisonagent =
      runLoop o (n+2) (execAgent o AgentName.Comparison_Agent s)
        (route_next_agent (execAgent o AgentName.Comparison_Agent s)) := rfl
  have hr : route_next_agent (execAgent o AgentName.Comparison_Agent s) =
      Node.summarizationagent := by
    apply route_next_after_comparison_agent
    rw [execAgent_messages]
    exact lastNonSupervisor_append _ _ (by simp)
  unfold Terminates
  rw [h1, hr]
  exact term_summ o n _

theorem term_dbg_inv (o : Oracle) (n : Nat) (s : AgentState) (p : QueryParameters)
    (hp : s.parameters = some p) (hi : p.intent = Intent.Investigation) :
    Terminates o (n+3) s Node.debugapiagent := by
  have h1 : runLoop o (n+3) s Node.debugapiagent =
      runLoop o (n+2) (execAgent o AgentName.DebugAPI_Agent s)
        (route_next_agent (execAgent o AgentName.DebugAPI_Agent s)) := rfl
  have hr : route_next_agent (execAgent o AgentName.DebugAPI_Agent s) =
      Node.summarizationagent := by
    apply route_next_inv_debugapi _ p _ hi
    · rw [execAgent_messages]
      exact lastNonSupervisor_append _ _ (by simp)
    · rw [execAgent_parameters, hp]
  unfold Terminates
  rw [h1, hr]
  exact term_summ o n _

theorem term_db_inv_afterSplunk (o : Oracle) (n : Nat) (s : AgentState)
    (p : QueryParameters) (hp : s.parameters = some p)
    (hi : p.intent = Intent.Investigation)
    (ms0 : List AgentName) (hms : s.messages = ms0 ++ [AgentName.Splunk_Agent]) :
    Terminates o (n+4) s Node.databaseagent := by
  have h1 : runLoop o (n+4) s Node.databaseagent =
      runLoop o (n+3) (execAgent o AgentName.Database_Agent s)
        (db_router (execAgent o AgentName.Database_Agent s)) := rfl
  have hm1 : lastNonSupervisor (execAgent o AgentName.Database_Agent s).messages =
      some AgentName.Database_Agent := by
    rw [execAgent_messages]
    exact lastNonSupervisor_append _ _ (by simp)
  have hrec : AgentName.Splunk_Agent ∈
      recentAgents (execAgent o AgentName.Database_Agent s).messages := by
    rw [execAgent_messages, hms, List.append_assoc]
    exact mem_recent_append2 ms0 _ _
  have hr : db_router (execAgent o AgentName.Database_Agent s) =
      Node.debugapiagent := by
    rw [db_router_after_db _ hm1]
    rw [route_next_inv_database _ p (by rw [execAgent_parameters, hp]) hi hm1]
    simp [hrec]
  unfold Terminates
  rw [h1, hr]
  exact term_dbg_inv o n _ p (by rw [execAgent_parameters, hp]) hi

theorem term_splunk_inv (o : Oracle) (n : Nat) (s : AgentState)
    (p : QueryParameters) (hp : s.parameters = some p)
    (hi : p.intent = Intent.Investigation) :
    Terminates o (n+5) s Node.splunkagent := by
  have h1 : runLoop o (n+5) s Node.splunkagent =
      runLoop o (n+4) (execAgent o AgentName.Splunk_Agent s)
        (route_next_agent (execAgent o AgentName.Splunk_Agent s)) := rfl
  have hp1 : (execAgent o AgentName.Splunk_Agent s).parameters = some p := by
    rw [execAgent_parameters, hp]
  have hm1 : lastNonSupervisor (execAgent o AgentName.Splunk_Agent s).messages =
      some AgentName.Splunk_Agent := by
    rw [execAgent_messages]
    exact lastNonSupervisor_append _ _ (by simp)
  have hr := route_next_inv_splunk _ p hp1 hi hm1
  unfold Terminates
  rw [h1, hr]
  by_cases hb : splunkLogsFlag (execAgent o AgentName.Splunk_Agent s).findings
  · rw [if_pos hb]
    exact term_summ o (n+2) _
  · rw [if_neg hb]
    exact term_db_inv_afterSplunk o n _ p hp1 hi s.messages (execAgent_messages o _ s)

theorem term_db_inv (o : Oracle) (n : Nat) (s : AgentState)
    (p : QueryParameters) (hp : s.parameters = some p)
    (hi : p.intent = Intent.Investigation) :
    Terminates o (n+7) s Node.databaseagent := by
  have h1 : runLoop o (n+7) s Node.databaseagent =
      runLoop o (n+6) (execAgent o AgentName.Database_Agent s)
        (db_router (execAgent o AgentName.Database_Agent s)) := rfl
  have hp1 : (execAgent o AgentName.Database_Agent s).parameters = some p := by
    rw [execAgent_parameters, hp]
  have hm1 : lastNonSupervisor (execAgent o AgentName.Database_Agent s).messages =
      some AgentName.Database_Agent := by
    rw [execAgent_messages]
    exact lastNonSupervisor_append _ _ (by simp)
  have hr : db_router (execAgent o AgentName.Database_Agent s) =
      route_next_agent (execAgent o AgentName.Database_Agent s) :=
    db_router_after_db _ hm1
  unfold Terminates
  rw [h1, hr, route_next_inv_database _ p hp1 hi hm1]
  split
  · exact term_dbg_inv o (n+3) _ p hp1 hi
  · split
    · exact term_splunk_inv o (n+1) _ p hp1 hi
    · exact term_dbg_inv o (n+3) _ p hp1 hi

theorem term_enricher_inv (o : Oracle) (n : Nat) (s : AgentState)
    (p : QueryParameters) (hp : s.parameters = some p)
    (hi : p.intent = Intent.Investigation) :
    Terminates o (n+8) s Node.orderenricheragent := by
  have h1 : runLoop o (n+8) s Node.orderenricheragent =
      runLoop o (n+7) (execAgent o AgentName.Order_Enricher_Agent s)
        (route_next_agent (execAgent o AgentName.Order_Enricher_Agent s)) := rfl
  have hp1 : (execAgent o AgentName.Order_Enricher_Agent s).parameters = some p := by
    rw [execAgent_parameters, hp]
  have hr : route_next_agent (execAgent o AgentName.Order_Enricher_Agent s) =
      Node.databaseagent := by
    apply route_next_inv_enricher _ p hp1 hi
    rw [execAgent_messages]
    exact lastNonSupervisor_append _ _ (by simp)
  unfold Terminates
  rw [h1, hr]
  exact term_db_inv o n _ p hp1 hi

theorem term_splunk_cmp_c (o : Oracle) (n : Nat) (s : AgentState)
    (p : QueryParameters) (hp : s.parameters = some p)
    (hi : p.intent = Intent.Comparison)
    (hph : s.current_investigation = Phase.comparison) :
    Terminates o (n+4) s Node.splunkagent := by
  have h1 : runLoop o (n+4) s Node.splunkagent =
      runLoop o (n+3) (execAgent o AgentName.Splunk_Agent s)
        (route_next_agent (execAgent o AgentName.Splunk_Agent s)) := rfl
  have hr : route_next_agent (execAgent o AgentName.Splunk_Agent s) =
      Node.comparisonagent := by
    apply route_next_comparison_phase_splunk _ p _ hi
    · rw [execAgent_phase, hph]
    · rw [execAgent_messages]
      exact lastNonSupervisor_append _ _ (by simp)
    · rw [execAgent_parameters, hp]
  unfold Terminates
  rw [h1, hr]
  exact term_cmpAgent o n _

theorem term_dbg_cmp_c (o : Oracle) (n : Nat) (s : AgentState)
    (p : QueryParameters) (hp : s.parameters = some p)
    (hi : p.intent = Intent.Comparison)
    (hph : s.current_investigation = Phase.comparison) :
    Terminates o (n+4) s Node.debugapiagent := by
  have h1 : runLoop o (n+4) s Node.debugapiagent =
      runLoop o (n+3) (execAgent o AgentName.DebugAPI_Agent s)
        (route_next_agent (execAgent o AgentName.DebugAPI_Agent s)) := rfl
  have hr : route_next_agent (execAgent o AgentName.DebugAPI_Agent s) =
      Node.comparisonagent := by
    apply route_next_comparison_phase_debugapi _ p _ hi
    · rw [execAgent_phase, hph]
    · rw [execAgent_messages]
      exact lastNonSupervisor_append _ _ (by simp)
    · rw [execAgent_parameters, hp]
  unfold Terminates
  rw [h1, hr]
  exact term_cmpAgent o n _

theorem term_db_cmp_c (o : Oracle) (n : Nat) (s : AgentState)
    (p : QueryParameters) (hp : s.parameters = some p)
    (hi : p.intent = Intent.Comparison)
    (hph : s.current_investigation = Phase.comparison) :
    Terminates o (n+6) s Node.databaseagent := by
  have h1 : runLoop o (n+6) s Node.databaseagent =
      runLoop o (n+5) (execAgent o AgentName.Database_Agent s)
        (db_router (execAgent o AgentName.Database_Agent s)) := rfl
  have hp1 : (execAgent o AgentName.Database_Agent s).parameters = some p := by
    rw [execAgent_parameters, hp]
  have hph1 : (execAgent o AgentName.Database_Agent s).current_investigation =
      Phase.comparison := by
    rw [execAgent_phase, hph]
  have hm1 : lastNonSupervisor (execAgent o AgentName.Database_Agent s).messages =
      some AgentName.Database_Agent := by
    rw [execAgent_messages]
    exact lastNonSupervisor_append _ _ (by simp)
  unfold Terminates
  rw [h1, db_router_after_db _ hm1,
      route_next_cmp_database_comparison _ p hp1 hi hph1 hm1]
  split
  · exact term_dbg_cmp_c o (n+1) _ p hp1 hi hph1
  · split
    · exact term_splunk_cmp_c o (n+1) _ p hp1 hi hph1
    · exact term_dbg_cmp_c o (n+1) _ p hp1 hi hph1

theorem term_enricher_cmp_c (o : Oracle) (n : Nat) (s : AgentState)
    (p : QueryParameters) (hp : s.parameters = some p)
    (hi : p.intent = Intent.Comparison)
    (hph : s.current_investigation = Phase.comparison) :
    Terminates o (n+7) s Node.orderenricheragent := by
  have h1 : runLoop o (n+7) s Node.orderenricheragent =
      runLoop o (n+6) (execAgent o AgentName.Order_Enricher_Agent s)
        (route_next_agent (execAgent o AgentName.Order_Enricher_Agent s)) := rfl
  have hp1 : (execAgent o AgentName.Order_Enricher_Agent s).parameters = some p := by
    rw [execAgent_parameters, hp]
  have hr : route_next_agent (execAgent o AgentName.Order_Enricher_Agent s) =
      Node.databaseagent := by
    apply route_next_cmp_enricher _ p hp1 hi
    rw [execAgent_messages]
    exact lastNonSupervisor_append _ _ (by simp)
  unfold Terminates
  rw [h1, hr]
  exact term_db_cmp_c o n _ p hp1 hi (by rw [execAgent_phase, hph])

theorem switchNode_phase (s : AgentState) :
    (switchNode s).current_investigation = Phase.comparison := rfl

theorem switchNode_parameters (s : AgentState) :
    (switchNode s).parameters = s.parameters := rfl

theorem term_switch (o : Oracle) (n : Nat) (s : AgentState)
    (p : QueryParameters) (hp : s.parameters = some p)
    (hi : p.intent = Intent.Comparison) :
    Terminates o (n+5) s Node.switch_to_comparison := by
  have h1 : runLoop o (n+5) s Node.switch_to_comparison =
      runLoop o (n+4) (switchNode s) Node.splunkagent := rfl
  unfold Terminates
  rw [h1]
  exact term_splunk_cmp_c o n _ p (by rw [switchNode_parameters, hp]) hi
    (switchNode_phase s)

theorem term_switchEnr (o : Oracle) (n : Nat) (s : AgentState)
    (p : QueryParameters) (hp : s.parameters = some p)
    (hi : p.intent = Intent.Comparison) :
    Terminates o (n+8) s Node.switch_to_comparison_enricher := by
  have h1 : runLoop o (n+8) s Node.switch_to_comparison_enricher =
      runLoop o (n+7) (switchNode s) Node.orderenricheragent := rfl
  unfold Terminates
  rw [h1]
  exact term_enricher_cmp_c o n _ p (by rw [switchNode_parameters, hp]) hi
    (switchNode_phase s)

theorem term_splunk_cmp_p (o : Oracle) (n : Nat) (s : AgentState)
    (p : QueryParameters) (hp : s.parameters = some p)
    (hi : p.intent = Intent.Comparison)
    (hph : s.current_investigation = Phase.primary) :
    Terminates o (n+9) s Node.splunkagent := by
  have h1 : runLoop o (n+9) s Node.splunkagent =
      runLoop o (n+8) (execAgent o AgentName.Splunk_Agent s)
        (route_next_agent (execAgent o AgentName.Splunk_Agent s)) := rfl
  have hp1 : (execAgent o AgentName.Splunk_Agent s).parameters = some p := by
    rw [execAgent_parameters, hp]
  have hr := route_next_comparison_primary_splunk _ p hp1 hi
    (by rw [execAgent_phase, hph])
    (by rw [execAgent_messages]; exact lastNonSupervisor_append _ _ (by simp))
  unfold Terminates
  rw [h1, hr]
  split
  · exact term_switchEnr o n _ p hp1 hi
  · exact term_switch o (n+3) _ p hp1 hi

theorem term_dbg_cmp_p (o : Oracle) (n : Nat) (s : AgentState)
    (p : QueryParameters) (hp : s.parameters = some p)
    (hi : p.intent = Intent.Comparison)
    (hph : s.current_investigation = Phase.primary) :
    Terminates o (n+9) s Node.debugapiagent := by
  have h1 : runLoop o (n+9) s Node.debugapiagent =
      runLoop o (n+8) (execAgent o AgentName.DebugAPI_Agent s)
        (route_next_agent (execAgent o AgentName.DebugAPI_Agent s)) := rfl
  have hp1 : (execAgent o AgentName.DebugAPI_Agent s).parameters = some p := by
    rw [execAgent_parameters, hp]
  have hr := route_next_comparison_primary_debugapi _ p hp1 hi
    (by rw [execAgent_phase, hph])
    (by rw [execAgent_messages]; exact lastNonSupervisor_append _ _ (by simp))
  unfold Terminates
  rw [h1, hr]
  split
  · exact term_switchEnr o n _ p hp1 hi
  · exact term_switch o (n+3) _ p hp1 hi

theorem term_db_cmp_p (o : Oracle) (n : Nat) (s : AgentState)
    (p : QueryParameters) (hp : s.parameters = some p)
    (hi : p.intent = Intent.Comparison)
    (hph : s.current_investigation = Phase.primary) :
    Terminates o (n+11) s Node.databaseagent := by
  have h1 : runLoop o (n+11) s Node.databaseagent =
      runLoop o (n+10) (execAgent o AgentName.Database_Agent s)
        (db_router (execAgent o AgentName.Database_Agent s)) := rfl
  have hp1 : (execAgent o AgentName.Database_Agent s).parameters = some p := by
    rw [execAgent_parameters, hp]
  have hph1 : (execAgent o AgentName.Database_Agent s).current_investigation =
      Phase.primary := by
    rw [execAgent_phase, hph]
  have hm1 : lastNonSupervisor (execAgent o AgentName.Database_Agent s).messages =
      some AgentName.Database_Agent := by
    rw [execAgent_messages]
    exact lastNonSupervisor_append _ _ (by simp)
  unfold Terminates
  rw [h1, db_router_after_db _ hm1,
      route_next_cmp_database_primary _ p hp1 hi hph1 hm1]
  split
  · exact term_dbg_cmp_p o (n+1) _ p hp1 hi hph1
  · split
    · exact term_splunk_cmp_p o (n+1) _ p hp1 hi hph1
    · exact term_dbg_cmp_p o (n+1) _ p hp1 hi hph1

theorem term_enricher_cmp_p (o : Oracle) (n : Nat) (s : AgentState)
    (p : QueryParameters) (hp : s.parameters = some p)
    (hi : p.intent = Intent.Comparison)
    (hph : s.current_investigation = Phase.primary) :
    Terminates o (n+12) s Node.orderenricheragent := by
  have h1 : runLoop o (n+12) s Node.orderenricheragent =
      runLoop o (n+11) (execAgent o AgentName.Order_Enricher_Agent s)
        (route_next_agent (execAgent o AgentName.Order_Enricher_Agent s)) := rfl
  have hp1 : (execAgent o AgentName.Order_Enricher_Agent s).parameters = some p := by
    rw [execAgent_parameters, hp]
  have hr : route_next_agent (execAgent o AgentName.Order_Enricher_Agent s) =
      Node.databaseagent := by
    apply route_next_cmp_enricher _ p hp1 hi
    rw [execAgent_messages]
    exact lastNonSupervisor_append _ _ (by simp)
  unfold Terminates
  rw [h1, hr]
  exact term_db_cmp_p o n _ p hp1 hi (by rw [execAgent_phase, hph])

theorem term_splunk_cmp (o : Oracle) (n : Nat) (s : AgentState)
    (p : QueryParameters) (hp : s.parameters = some p)
    (hi : p.intent = Intent.Comparison) :
    Terminates o (n+9) s Node.splunkagent := by
  cases hph : s.current_investigation with
  | primary => exact term_splunk_cmp_p o n s p hp hi hph
  | comparison => exact term_splunk_cmp_c o (n+5) s p hp hi hph

theorem term_enricher_cmp (o : Oracle) (n : Nat) (s : AgentState)
    (p : QueryParameters) (hp : s.parameters = some p)
    (hi : p.intent = Intent.Comparison) :
    Terminates o (n+12) s Node.orderenricheragent := by
  cases hph : s.current_investigation with
  | primary => exact term_enricher_cmp_p o n s p hp hi hph
  | comparison => exact term_enricher_cmp_c o (n+5) s p hp hi hph

theorem term_vectordb_simple (o : Oracle) (n : Nat) (s : AgentState)
    (p : QueryParameters) (hp : s.parameters = some p)
    (hi : p.intent = Intent.Knowledge ∨ p.intent = Intent.Data ∨
          p.intent = Intent.Monitoring) :
    Terminates o (n+3) s Node.vectordbagent := by
  have h1 : runLoop o (n+3) s Node.vectordbagent =
      runLoop o (n+2) (execAgent o AgentName.VectorDB_Agent s)
        (route_next_agent (execAgent o AgentName.VectorDB_Agent s)) := rfl
  have hr : route_next_agent (execAgent o AgentName.VectorDB_Agent s) =
      Node.summarizationagent := by
    apply route_next_simple _ p AgentName.VectorDB_Agent
      (by rw [execAgent_parameters, hp]) hi
      (by rw [execAgent_messages]; exact lastNonSupervisor_append _ _ (by simp))
      (by simp)
  unfold Terminates
  rw [h1, hr]
  exact term_summ o n _

theorem term_monitoring_simple (o : Oracle) (n : Nat) (s : AgentState)
    (p : QueryParameters) (hp : s.parameters = some p)
    (hi : p.intent = Intent.Knowledge ∨ p.intent = Intent.Data ∨
          p.intent = Intent.Monitoring) :
    Terminates o (n+3) s Node.monitoringagent := by
  have h1 : runLoop o (n+3) s Node.monitoringagent =
      runLoop o (n+2) (execAgent o AgentName.Monitoring_Agent s)
        (route_next_agent (execAgent o AgentName.Monitoring_Agent s)) := rfl
  have hr : route_next_agent (execAgent o AgentName.Monitoring_Agent s) =
      Node.summarizationagent := by
    apply route_next_simple _ p AgentName.Monitoring_Agent
      (by rw [execAgent_parameters, hp]) hi
      (by rw [execAgent_messages]; exact lastNonSupervisor_append _ _ (by simp))
      (by simp)
  unfold Terminates
  rw [h1, hr]
  exact term_summ o n _

theorem term_splunk_simple (o : Oracle) (n : Nat) (s : AgentState)
    (p : QueryParameters) (hp : s.parameters = some p)
    (hi : p.intent = Intent.Knowledge ∨ p.intent = Intent.Data ∨
          p.intent = Intent.Monitoring) :
    Terminates o (n+3) s Node.splunkagent := by
  have h1 : runLoop o (n+3) s Node.splunkagent =
      runLoop o (n+2) (execAgent o AgentName.Splunk_Agent s)
        (route_next_agent (execAgent o AgentName.Splunk_Agent s)) := rfl
  have hr : route_next_agent (execAgent o AgentName.Splunk_Agent s) =
      Node.summarizationagent := by
    apply route_next_simple _ p AgentName.Splunk_Agent
      (by rw [execAgent_parameters, hp]) hi
      (by rw [execAgent_messages]; exact lastNonSupervisor_append _ _ (by simp))
      (by simp)
  unfold Terminates
  rw [h1, hr]
  exact term_summ o n _

theorem term_enricher_simple (o : Oracle) (n : Nat) (s : AgentState)
    (p : QueryParameters) (hp : s.parameters = some p)
    (hi : p.intent = Intent.Knowledge ∨ p.intent = Intent.Data ∨
          p.intent = Intent.Monitoring) :
    Terminates o (n+3) s Node.orderenricheragent := by
  have h1 : runLoop o (n+3) s Node.orderenricheragent =
      runLoop o (n+2) (execAgent o AgentName.Order_Enricher_Agent s)
        (route_next_agent (execAgent o AgentName.Order_Enricher_Agent s)) := rfl
  have hr : route_next_agent (execAgent o AgentName.Order_Enricher_Agent s) =
      Node.summarizationagent := by
    apply route_next_simple _ p AgentName.Order_Enricher_Agent
      (by rw [execAgent_parameters, hp]) hi
      (by rw [execAgent_messages]; exact lastNonSupervisor_append _ _ (by simp))
      (by simp)
  unfold Terminates
  rw [h1, hr]
  exact term_summ o n _

theorem term_code_ca (o : Oracle) (n : Nat) (s : AgentState)
    (p : QueryParameters) (hp : s.parameters = some p)
    (hi : p.intent = Intent.CodeAnalysis) :
    Terminates o (n+3) s Node.codeagent := by
  have h1 : runLoop o (n+3) s Node.codeagent =
      runLoop o (n+2) (execAgent o AgentName.Code_Agent s)
        (route_next_agent (execAgent o AgentName.Code_Agent s)) := rfl
  have hr : route_next_agent (execAgent o AgentName.Code_Agent s) =
      Node.summarizationagent := by
    apply route_next_codeanalysis_code _ p (by rw [execAgent_parameters, hp]) hi
    rw [execAgent_messages]
    exact lastNonSupervisor_append _ _ (by simp)
  unfold Terminates
  rw [h1, hr]
  exact term_summ o n _

theorem term_db_ca (o : Oracle) (n : Nat) (s : AgentState)
    (p : QueryParameters) (hp : s.parameters = some p)
    (hi : p.intent = Intent.CodeAnalysis) :
    Terminates o (n+5) s Node.databaseagent := by
  have h1 : runLoop o (n+5) s Node.databaseagent =
      runLoop o (n+4) (execAgent o AgentName.Database_Agent s)
        (db_router (execAgent o AgentName.Database_Agent s)) := rfl
  have hp1 : (execAgent o AgentName.Database_Agent s).parameters = some p := by
    rw [execAgent_parameters, hp]
  have hm1 : lastNonSupervisor (execAgent o AgentName.Database_Agent s).messages =
      some AgentName.Database_Agent := by
    rw [execAgent_messages]
    exact lastNonSupervisor_append _ _ (by simp)
  unfold Terminates
  rw [h1, db_router_after_db _ hm1, route_next_codeanalysis_db _ p hp1 hi hm1]
  exact term_code_ca o (n+1) _ p hp1 hi

theorem term_supervisor (o : Oracle) (n : Nat) (s : AgentState) :
    Terminates o (n+14) s Node.supervisor := by
  have h1 : runLoop o (n+14) s Node.supervisor =
      runLoop o (n+13) (supervisorNode o s)
        (route_from_supervisor (supervisorNode o s)) := rfl
  unfold Terminates
  rw [h1]
  rcases hcl : o.classify with _ | q
  · have hp1 : (supervisorNode o s).parameters =
        some { intent := Intent.Knowledge, date := o.currentDate,
               reasoning := "Fallback due to error" } := by
      simp [supervisorNode, hcl]
    have hroute : route_from_supervisor (supervisorNode o s) = Node.vectordbagent := by
      simp [route_from_supervisor, hp1]
    rw [hroute]
    exact term_vectordb_simple o (n+10) _ _ hp1 (Or.inl rfl)
  · have hp1 : (supervisorNode o s).parameters =
        some (ensure_dates_set o.currentDate q) := by
      simp [supervisorNode, hcl]
    by_cases henr : (((ensure_dates_set o.currentDate q).intent = Intent.Investigation
        ∨ (ensure_dates_set o.currentDate q).intent = Intent.Comparison
        ∨ (ensure_dates_set o.currentDate q).intent = Intent.Data)
        ∧ (ensure_dates_set o.currentDate q).order_id.isEmpty = false
        ∧ needs_enrichment (ensure_dates_set o.currentDate q).order_id = true)
    · have hroute : route_from_supervisor (supervisorNode o s) =
          Node.orderenricheragent := by
        simp only [route_from_supervisor, hp1]
        rw [if_pos henr]
      rw [hroute]
      rcases henr.1 with hI | hI | hI
      · exact term_enricher_inv o (n+5) _ _ hp1 hI
      · exact term_enricher_cmp o (n+1) _ _ hp1 hI
      · exact term_enricher_simple o (n+10) _ _ hp1 (Or.inr (Or.inl hI))
    · have hroute : route_from_supervisor (supervisorNode o s) =
          (match (ensure_dates_set o.currentDate q).intent with
           | Intent.Knowledge => Node.vectordbagent
           | Intent.Data => Node.splunkagent
           | Intent.Monitoring => Node.monitoringagent
           | Intent.CodeAnalysis =>
             if (ensure_dates_set o.currentDate q).order_id.isEmpty then Node.codeagent
             else Node.databaseagent
           | Intent.Investigation => Node.splunkagent
           | Intent.Comparison => Node.splunkagent) := by
        simp only [route_from_supervisor, hp1]
        rw [if_neg henr]
      rw [hroute]
      cases hI : (ensure_dates_set o.currentDate q).intent
      · exact term_vectordb_simple o (n+10) _ _ hp1 (Or.inl hI)
      · exact term_splunk_simple o (n+10) _ _ hp1 (Or.inr (Or.inl hI))
      · exact term_splunk_inv o (n+8) _ _ hp1 hI
      · exact term_monitoring_simple o (n+10) _ _ hp1 (Or.inr (Or.inr hI))
      · by_cases hoid : (ensure_dates_set o.currentDate q).order_id.isEmpty = true
        · rw [if_pos hoid]
          exact term_code_ca o (n+10) _ _ hp1 hI
        · rw [if_neg hoid]
          exact term_db_ca o (n+8) _ _ hp1 hI
      · exact term_splunk_cmp o (n+4) _ _ hp1 hI

/-- C9: every run of the graph from the supervisor entry — for every
classification outcome, every tool success/failure pattern and every
records-found pattern — reaches the graph end within a fixed step bound
(so no routing path loops forever or aborts early), the final answer set
at synthesis is a non-empty string, and a state whose parameters were
never populated routes from the supervisor straight to synthesis without
running any worker. -/
theorem C9_terminates_at_synthesis :
    (∀ (o : Oracle) (q : String),
       (runLoop o 15 (create_initial_state q) Node.supervisor).2 = Node.graphEnd
       ∧ (runLoop o 15 (create_initial_state q) Node.supervisor).1.final_answer ≠ "")
    ∧ (∀ s : AgentState, s.parameters = none →
         route_from_supervisor s = Node.synthesize)
    ∧ (∀ s : AgentState, simpleSynthesis s ≠ "") := by
  refine ⟨?_, ?_, simpleSynthesis_ne⟩
  · intro o q
    exact term_supervisor o 1 (create_initial_state q)
  · intro s hs
    simp [route_from_supervisor, hs]

def oracleW : Oracle :=
  { classify := some { intent := Intent.Investigation, order_id := "A123".toList,
                       reasoning := "classified" },
    currentDate := "2025-10-12".toList,
    outcome := fun _ => { fails := false, logsFound := true, text := "ok",
                          analysisText := "analysis", time := 0 } }

theorem C9_terminates_at_synthesis_witness :
    (runLoop oracleW 15 (create_initial_state "Investigate order A123")
        Node.supervisor).2 = Node.graphEnd
    ∧ route_from_supervisor emptyState = Node.synthesize := by
  constructor
  · exact (C9_terminates_at_synthesis.1 oracleW "Investigate order A123").1
  · exact C9_terminates_at_synthesis.2.1 emptyState rfl

/-! Comparison-enrichment-field preservation during the primary phase, used
by the phase-flip claim: at every reachable flip point the comparison
phase's enrichment state is still unset. -/

theorem toolRun_primary_comp_fields (oc : AgentOutcome) (nm : AgentName)
    (ctx : InvContext) (s : AgentState)
    (hph : s.current_investigation = Phase.primary) :
    (toolRun oc nm ctx s).1.comparison_aaa_order_id = s.comparison_aaa_order_id
    ∧ (toolRun oc nm ctx s).1.comparison_enrichment_flow = s.comparison_enrichment_flow
    ∧ (toolRun oc nm ctx s).1.comparison_actual_order_id = s.comparison_actual_order_id := by
  cases nm <;> simp only [toolRun] <;> (repeat' split) <;> simp_all

theorem setPhaseFindings_comp_fields (s : AgentState) (ph : Phase)
    (nm : AgentName) (r : FindingRecord) :
    (setPhaseFindings s ph nm r).comparison_aaa_order_id = s.comparison_aaa_order_id
    ∧ (setPhaseFindings s ph nm r).comparison_enrichment_flow = s.comparison_enrichment_flow
    ∧ (setPhaseFindings s ph nm r).comparison_actual_order_id = s.comparison_actual_order_id := by
  cases ph <;> simp [setPhaseFindings]

theorem execAgent_primary_comp_fields (o : Oracle) (nm : AgentName)
    (s : AgentState) (hph : s.current_investigation = Phase.primary) :
    (execAgent o nm s).comparison_aaa_order_id = s.comparison_aaa_order_id
    ∧ (execAgent o nm s).comparison_enrichment_flow = s.comparison_enrichment_flow
    ∧ (execAgent o nm s).comparison_actual_order_id = s.comparison_actual_order_id := by
  unfold execAgent
  dsimp only
  split
  · simp [(setPhaseFindings_comp_fields _ _ _ _).1,
      (setPhaseFindings_comp_fields _ _ _ _).2.1,
      (setPhaseFindings_comp_fields _ _ _ _).2.2]
  · simp [(setPhaseFindings_comp_fields _ _ _ _).1,
      (setPhaseFindings_comp_fields _ _ _ _).2.1,
      (setPhaseFindings_comp_fields _ _ _ _).2.2,
      (toolRun_primary_comp_fields _ nm _ s hph).1,
      (toolRun_primary_comp_fields _ nm _ s hph).2.1,
      (toolRun_primary_comp_fields _ nm _ s hph).2.2]

/-- C8: when the primary chain of a comparison investigation reaches its
terminal point the comparison phase's enrichment state is unset — the
transition node writes only the active phase and a zero step counter, and
(second conjunct) no primary-phase worker execution ever sets a comparison
enrichment field — so after the flip the active phase is comparison, the
step counter is 0, the comparison enrichment state is unset, and every
primary-phase field (findings, raw/cleaned id, active flag, resolved id,
parameters, error log, query) is unchanged. -/
theorem C8_phase_flip_frame :
    (∀ s : AgentState,
       s.comparison_aaa_order_id = none → s.comparison_enrichment_flow = false →
       s.comparison_actual_order_id = none →
       ((switchNode s).current_investigation = Phase.comparison
        ∧ (switchNode s).investigation_step = 0
        ∧ (switchNode s).comparison_aaa_order_id = none
        ∧ (switchNode s).comparison_enrichment_flow = false
        ∧ (switchNode s).comparison_actual_order_id = none
        ∧ (switchNode s).findings = s.findings
        ∧ (switchNode s).aaa_order_id = s.aaa_order_id
        ∧ (switchNode s).enrichment_flow = s.enrichment_flow
        ∧ (switchNode s).actual_order_id = s.actual_order_id
        ∧ (switchNode s).parameters = s.parameters
        ∧ (switchNode s).error_log = s.error_log
        ∧ (switchNode s).user_query = s.user_query))
    ∧ (∀ (o : Oracle) (nm : AgentName) (s : AgentState),
       s.current_investigation = Phase.primary →
       s.comparison_aaa_order_id = none → s.comparison_enrichment_flow = false →
       s.comparison_actual_order_id = none →
       ((execAgent o nm s).comparison_aaa_order_id = none
        ∧ (execAgent o nm s).comparison_enrichment_flow = false
        ∧ (execAgent o nm s).comparison_actual_order_id = none)) := by
  constructor
  · intro s h1 h2 h3
    exact ⟨rfl, rfl, h1, h2, h3, rfl, rfl, rfl, rfl, rfl, rfl, rfl⟩
  · intro o nm s hph h1 h2 h3
    refine ⟨?_, ?_, ?_⟩
    · rw [(execAgent_primary_comp_fields o nm s hph).1, h1]
    · rw [(execAgent_primary_comp_fields o nm s hph).2.1, h2]
    · rw [(execAgent_primary_comp_fields o nm s hph).2.2, h3]

theorem C8_phase_flip_frame_witness :
    (switchNode cmpPrimarySplunkState).current_investigation = Phase.comparison
    ∧ (switchNode cmpPrimarySplunkState).investigation_step = 0
    ∧ (switchNode cmpPrimarySplunkState).findings = cmpPrimarySplunkState.findings
    ∧ (execAgent oracleW AgentName.Splunk_Agent
         cmpPrimarySplunkState).comparison_actual_order_id = none := by
  refine ⟨(C8_phase_flip_frame.1 cmpPrimarySplunkState rfl rfl rfl).1,
          (C8_phase_flip_frame.1 cmpPrimarySplunkState rfl rfl rfl).2.1,
          (C8_phase_flip_frame.1 cmpPrimarySplunkState rfl rfl rfl).2.2.2.2.2.1,
          (C8_phase_flip_frame.2 oracleW AgentName.Splunk_Agent
            cmpPrimarySplunkState rfl rfl rfl rfl).2.2⟩

/-! Detailed model of the execution wrapper src/base_agent.py execute
(lines 255-340) with the tenacity retry decorator, the SimpleCache and the
reflection branch, for the retry and caching claims. str(findings) is
abstracted by the raw_size and has_error_text fields of the tool findings;
the md5 cache key is modelled by its preimage (worker name, effective id,
effective date), which the hash is injective on up to collisions. -/

structure Settings where
  enable_caching : Bool
  enable_reflection : Bool
  cache_ttl_minutes : Nat
  max_retries : Nat

/-- The dict returned by a worker's _execute_tool, plus the "analysis" entry
the wrapper adds; raw_size models len(str(findings)) and has_error_text
models "error" in str(findings).lower(). -/
structure ToolFindings where
  summary : String
  analysis : String := ""
  raw_size : Nat
  has_error_text : Bool
  logs_found : Option Bool := none
  cache_key : Option String := none
deriving DecidableEq, Repr

/-- A raised Python exception; transient marks the ConnectionError or
TimeoutError class that the retry decorator's predicate accepts. -/
structure PyExc where
  transient : Bool
  msg : String
deriving DecidableEq, Repr

inductive ToolOut where
  | ok (f : ToolFindings)
  | raise (e : PyExc)

/-- src/base_agent.py _needs_reflection: error text, large output, or the
global enable_reflection setting. -/
def needsReflection (f : ToolFindings) (st : Settings) : Bool :=
  f.has_error_text || decide (5000 < f.raw_size) || st.enable_reflection

abbrev CacheKey := AgentName × Str × Str

abbrev Cache := List (CacheKey × ToolFindings × Nat)

/-- SimpleCache.get: a hit within ttl_minutes * 60 seconds returns the
value; a stale or missing entry returns nothing (the stale-entry deletion
is unobservable here). -/
def cacheGet (c : Cache) (k : CacheKey) (ttl_minutes now : Nat) :
    Option ToolFindings :=
  match c.find? (fun e => e.1 = k) with
  | some e => if now - e.2.2 < ttl_minutes * 60 then some e.2.1 else none
  | none => none

/-- SimpleCache.set: store (value, now) under the key. -/
def cacheSet (c : Cache) (k : CacheKey) (f : ToolFindings) (ts : Nat) : Cache :=
  dictAssign c k (f, ts)

/-- On a hit, findings["analysis"] = analysis mutates the cached dict in
place; the stored timestamp is untouched. -/
def cacheUpdate (c : Cache) (k : CacheKey) (f : ToolFindings) : Cache :=
  c.map (fun e => if e.1 = k then (k, f, e.2.2) else e)

/-- The FindingRecord _store_findings builds from the findings dict and the
context. -/
def mkRecord (f2 : ToolFindings) (ctx : InvContext) (now : Nat) : FindingRecord :=
  { summary := f2.summary, analysis := f2.analysis, order_id := ctx.order_id,
    timestamp := now, cache_key := f2.cache_key, logs_found := f2.logs_found,
    enriched := ctx.enriched }

structure ExecResult where
  state : AgentState
  cache : Cache
  toolInvoked : Bool
  reflectInvoked : Bool
  stored : FindingRecord

/-- src/base_agent.py execute, one call. The try block covers the cache
check, the tool invocation, the reflection branch and the store; `except
Exception` catches every exception — including the transient
ConnectionError/TimeoutError class — appends an error_log entry and a
degraded record, and returns normally. -/
def executeDetailed (st : Settings) (nm : AgentName) (tool : Nat → ToolOut)
    (reflectText : String) (now callIdx : Nat) (s : AgentState)
    (cache : Cache) : ExecResult :=
  let ctx := getInvestigationContext s
  let key : CacheKey := (nm, ctx.order_id, ctx.date)
  let attempt : Except PyExc (ToolFindings × Bool × Bool) :=
    if st.enable_caching = true then
      match cacheGet cache key st.cache_ttl_minutes now with
      | some f => Except.ok (f, false, true)
      | none =>
        match tool callIdx with
        | ToolOut.ok f => Except.ok (f, true, false)
        | ToolOut.raise e => Except.error e
    else
      match tool callIdx with
      | ToolOut.ok f => Except.ok (f, true, false)
      | ToolOut.raise e => Except.error e
  match attempt with
  | Except.ok (f, invoked, fromCache) =>
    let doReflect := needsReflection f st
    let analysisText := if doReflect then reflectText else f.summary
    let f2 := { f with analysis := analysisText }
    let cache2 :=
      if st.enable_caching = true then
        if fromCache then cacheUpdate cache key f2 else cacheSet cache key f2 now
      else cache
    let record := mkRecord f2 ctx now
    let s1 := setPhaseFindings s ctx.phaseKey nm record
    { state := { s1 with messages := s1.messages ++ [nm] },
      cache := cache2, toolInvoked := invoked, reflectInvoked := doReflect,
      stored := record }
  | Except.error e =>
    let record : FindingRecord :=
      { summary := "", analysis := "", order_id := ctx.order_id,
        timestamp := now, cache_key := none, logs_found := none,
        enriched := ctx.enriched }
    let s1 := setPhaseFindings s ctx.phaseKey nm record
    { state := { s1 with error_log := s1.error_log ++ [e.msg],
                         messages := s1.messages ++ [nm] },
      cache := cache, toolInvoked := true, reflectInvoked := false,
      stored := record }

/-- tenacity retry_if_exception_type((ConnectionError, TimeoutError)). -/
def isTransientExc (e : PyExc) : Bool := e.transient

structure RetryResult (α : Type) where
  attempts : Nat
  outcome : Except PyExc α

/-- tenacity with stop_after_attempt: run attempt i with rem+1 attempts
still allowed; a raised exception that matches the predicate with attempts
remaining is retried, any other outcome is returned (or re-raised). -/
def tenacityGo {α : Type} (retryPred : PyExc → Bool)
    (call : Nat → Except PyExc α) : Nat → Nat → RetryResult α
  | i, 0 => { attempts := i, outcome := call i }
  | i, rem+1 =>
    match call i with
    | Except.ok a => { attempts := i + 1, outcome := Except.ok a }
    | Except.error e =>
      if retryPred e ∧ rem + 1 > 1 then tenacityGo retryPred call (i+1) rem
      else { attempts := i + 1, outcome := Except.error e }

def tenacityRun {α : Type} (retryPred : PyExc → Bool) (maxAttempts : Nat)
    (call : Nat → Except PyExc α) : RetryResult α :=
  tenacityGo retryPred call 0 maxAttempts

/-- The decorated BaseAgent.execute: the wrapped callable returns normally
on every attempt because executeDetailed's except-branch consumes every
exception, so the retry predicate can never fire. -/
def executeWithRetry (st : Settings) (nm : AgentName) (tool : Nat → ToolOut)
    (reflectText : String) (now : Nat) (s : AgentState) (cache : Cache) :
    RetryResult ExecResult :=
  tenacityRun isTransientExc st.max_retries
    (fun attempt =>
      Except.ok (executeDetailed st nm tool reflectText now attempt s cache))

/-! Concrete wrapper scenarios for the retry and cache claims. -/

def settings3 : Settings :=
  { enable_caching := false, enable_reflection := false,
    cache_ttl_minutes := 5, max_retries := 3 }

def settingsReflect : Settings :=
  { enable_caching := true, enable_reflection := true,
    cache_ttl_minutes := 5, max_retries := 3 }

def settingsNoReflect : Settings :=
  { enable_caching := true, enable_reflection := false,
    cache_ttl_minutes := 5, max_retries := 3 }

def c5State : AgentState := { emptyState with
  parameters := some invParams, messages := [AgentName.Supervisor] }

/-- A core operation that raises a transient-class failure on every
attempt. -/
def alwaysTransientTool : Nat → ToolOut :=
  fun _ => ToolOut.raise { transient := true, msg := "Splunk_Agent: ConnectionError" }

def c5run : RetryResult ExecResult :=
  executeWithRetry settings3 AgentName.Splunk_Agent alwaysTransientTool
    "reflection" 7 c5State []

/-- C5: with max_retries = 3 and a core operation raising ConnectionError
on every attempt, the decorated execute performs exactly ONE attempt (not
3): the blanket except inside execute consumes the transient exception
before the tenacity decorator can observe it, so no retry ever happens.
One error_log entry and one degraded FindingRecord are produced, the call
returns normally, and the router still advances the investigation. -/
theorem C5_retry_dead_eval :
    c5run.attempts = 1
    ∧ c5run.outcome.toOption.map (fun r => r.toolInvoked) = some true
    ∧ c5run.outcome.toOption.map (fun r => r.state.error_log) =
        some ["Splunk_Agent: ConnectionError"]
    ∧ c5run.outcome.toOption.map
        (fun r => dictFind r.state.findings AgentName.Splunk_Agent) =
        some (some { summary := "", analysis := "", order_id := "A123".toList,
                     timestamp := 7, cache_key := none, logs_found := none,
                     enriched := false })
    ∧ c5run.outcome.toOption.map (fun r => r.state.messages) =
        some [AgentName.Supervisor, AgentName.Splunk_Agent]
    ∧ c5run.outcome.toOption.map (fun r => route_next_agent r.state) =
        some Node.databaseagent := by
  refine ⟨rfl, rfl, rfl, by decide, rfl, by decide⟩

def c6tool : Nat → ToolOut :=
  fun _ => ToolOut.ok { summary := "Logs found for A123", raw_size := 100,
                        has_error_text := false, logs_found := some true }

def c6first : ExecResult :=
  executeDetailed settingsReflect AgentName.Splunk_Agent c6tool "insight" 0 0
    c5State []

def c6second : ExecResult :=
  executeDetailed settingsReflect AgentName.Splunk_Agent c6tool "insight" 60 1
    c6first.state c6first.cache

/-- C6 counterexample: on the second call with the identical key inside the
TTL the cache serves the findings (the core operation is not invoked), yet
the reflection (deep-analysis) step still runs — with enable_reflection on,
reflectInvoked is true on the cache hit, contradicting "deep analysis is
skipped entirely" — and the stored record carries no served-from-cache
marker: it differs from the first call's record exactly in its timestamp. -/
theorem C6_cache_hit_reflects_counterexample :
    c6second.toolInvoked = false
    ∧ c6second.reflectInvoked = true
    ∧ c6second.stored = { c6first.stored with timestamp := 60 }
    ∧ c6second.stored ≠ c6first.stored := by
  refine ⟨rfl, rfl, by decide, by decide⟩

def c6firstNR : ExecResult :=
  executeDetailed settingsNoReflect AgentName.Splunk_Agent c6tool "insight" 0 0
    c5State []

def c6secondNR : ExecResult :=
  executeDetailed settingsNoReflect AgentName.Splunk_Agent c6tool "insight" 60 1
    c6firstNR.state c6firstNR.cache

/-- C6 amended: on a fresh cache hit the core operation is not invoked and
the outcome is rebuilt from the cached findings — but the reflection
decision is re-evaluated rather than skipped, the stored record is the
cached findings' record with the current timestamp (no served-from-cache
marker exists), and the only cache effect is the in-place analysis
mutation; in the no-reflection configuration the second call's record
equals the first call's except for its timestamp and the cache is
unchanged. -/
theorem C6_cache_amended :
    (∀ (st : Settings) (nm : AgentName) (tool : Nat → ToolOut) (rt : String)
       (now idx : Nat) (s : AgentState) (cache : Cache) (f : ToolFindings),
       st.enable_caching = true →
       cacheGet cache (nm, (getInvestigationContext s).order_id,
         (getInvestigationContext s).date) st.cache_ttl_minutes now = some f →
       ((executeDetailed st nm tool rt now idx s cache).toolInvoked = false
        ∧ (executeDetailed st nm tool rt now idx s cache).reflectInvoked =
            needsReflection f st
        ∧ (executeDetailed st nm tool rt now idx s cache).stored =
            mkRecord { f with analysis := if needsReflection f st then rt else f.summary }
              (getInvestigationContext s) now
        ∧ (executeDetailed st nm tool rt now idx s cache).cache =
            cacheUpdate cache (nm, (getInvestigationContext s).order_id,
              (getInvestigationContext s).date)
              { f with analysis := if needsReflection f st then rt else f.summary }))
    ∧ (c6secondNR.toolInvoked = false
       ∧ c6secondNR.stored = { c6firstNR.stored with timestamp := 60 }
       ∧ c6secondNR.cache = c6firstNR.cache) := by
  constructor
  · intro st nm tool rt now idx s cache f hc hhit
    unfold executeDetailed
    dsimp only
    rw [hc]
    simp only [reduceIte, hhit]
    simp
  · refine ⟨rfl, by decide, by decide⟩

theorem C6_cache_amended_witness :
    (executeDetailed settingsNoReflect AgentName.Splunk_Agent c6tool "insight"
        60 1 c6firstNR.state c6firstNR.cache).toolInvoked = false := by
  have h := (C6_cache_amended.1 settingsNoReflect AgentName.Splunk_Agent c6tool
    "insight" 60 1 c6firstNR.state c6firstNR.cache
    { summary := "Logs found for A123", analysis := "Logs found for A123",
      raw_size := 100, has_error_text := false, logs_found := some true,
      cache_key := none }
    rfl (by decide)).1
  exact h

/-! The findings-store claims: dict-assignment semantics of
_store_findings and the update_dict channel merge. -/

theorem dictFind_cons {K V : Type} [DecidableEq K] (a : K × V) (t : List (K × V))
    (k : K) :
    dictFind (a :: t) k = if a.1 = k then some a.2 else dictFind t k := by
  by_cases h : a.1 = k <;> simp [dictFind, List.find?, h]

theorem dictFind_map_ne {K V : Type} [DecidableEq K] (m : List (K × V))
    (k k' : K) (v : V) (hne : k' ≠ k) :
    dictFind (m.map (fun kv => if kv.1 = k then (k, v) else kv)) k' = dictFind m k' := by
  induction m with
  | nil => rfl
  | cons a t ih =>
    rw [List.map_cons, dictFind_cons, dictFind_cons]
    by_cases ha : a.1 = k
    · rw [if_pos ha, if_neg (fun h2 : (k, v).1 = k' => hne h2.symm),
          if_neg (fun h2 : a.1 = k' => hne (h2 ▸ ha))]
      exact ih
    · rw [if_neg ha]
      by_cases ha' : a.1 = k'
      · rw [if_pos ha', if_pos ha']
      · rw [if_neg ha', if_neg ha']
        exact ih

theorem dictFind_map_self {K V : Type} [DecidableEq K] (m : List (K × V))
    (k : K) (v : V) (hany : m.any (fun kv => kv.1 = k) = true) :
    dictFind (m.map (fun kv => if kv.1 = k then (k, v) else kv)) k = some v := by
  induction m with
  | nil => simp at hany
  | cons a t ih =>
    rw [List.map_cons, dictFind_cons]
    by_cases ha : a.1 = k
    · rw [if_pos ha]
      simp
    · rw [if_neg ha, if_neg ha]
      apply ih
      simp only [List.any_cons, Bool.or_eq_true, decide_eq_true_eq] at hany
      rcases hany with h1 | h1
      · exact absurd h1 ha
      · exact h1

theorem dictFind_append_single_ne {K V : Type} [DecidableEq K]
    (m : List (K × V)) (k k' : K) (v : V) (hne : k' ≠ k) :
    dictFind (m ++ [(k, v)]) k' = dictFind m k' := by
  induction m with
  | nil =>
    simp only [List.nil_append]
    rw [dictFind_cons, if_neg (fun h2 : (k, v).1 = k' => hne h2.symm)]
  | cons a t ih =>
    rw [List.cons_append, dictFind_cons, dictFind_cons]
    by_cases ha' : a.1 = k'
    · rw [if_pos ha', if_pos ha']
    · rw [if_neg ha', if_neg ha']
      exact ih

theorem dictFind_append_single_self {K V : Type} [DecidableEq K]
    (m : List (K × V)) (k : K) (v : V)
    (hany : m.any (fun kv => kv.1 = k) = false) :
    dictFind (m ++ [(k, v)]) k = some v := by
  induction m with
  | nil =>
    simp only [List.nil_append]
    rw [dictFind_cons, if_pos rfl]
  | cons a t ih =>
    have hsplit : (decide (a.1 = k) || t.any (fun kv => decide (kv.1 = k))) = false := by
      simp only [List.any_cons] at hany
      exact hany
    have ha : a.1 ≠ k := by
      intro h
      rw [h] at hsplit
      simp at hsplit
    rw [List.cons_append, dictFind_cons, if_neg ha]
    apply ih
    rcases Bool.or_eq_false_iff.mp hsplit with ⟨h1, h2⟩
    exact h2

theorem dictFind_assign_ne {K V : Type} [DecidableEq K]
    (m : List (K × V)) (k k' : K) (v : V) (hne : k' ≠ k) :
    dictFind (dictAssign m k v) k' = dictFind m k' := by
  unfold dictAssign
  split
  · exact dictFind_map_ne m k k' v hne
  · exact dictFind_append_single_ne m k k' v hne

theorem dictFind_assign_self {K V : Type} [DecidableEq K]
    (m : List (K × V)) (k : K) (v : V) :
    dictFind (dictAssign m k v) k = some v := by
  unfold dictAssign
  split
  · next h => exact dictFind_map_self m k v h
  · next h => exact dictFind_append_single_self m k v (Bool.eq_false_iff.mpr h)

/-- The record stored by the database worker's enrichment-lookup call and
by its later trade-data call, in one phase. -/
def dbEnrichmentRec : FindingRecord :=
  { summary := "Enriched D12345678 -> ORD12345678", analysis := "",
    order_id := "D12.345.678".toList, timestamp := 1, cache_key := none,
    logs_found := none, enriched := false }

def dbTradeRec : FindingRecord :=
  { summary := "Database records retrieved for ORD12345678", analysis := "",
    order_id := "ORD12345678".toList, timestamp := 2, cache_key := none,
    logs_found := none, enriched := true }

/-- C7 counterexample: _store_findings keys the phase findings map by
worker identity alone — no call-purpose tag exists — so when the database
worker runs twice in one phase (enrichment lookup, then trade retrieval)
the second store replaces the first record wholesale: only the trade
record remains and the enrichment record is gone. -/
theorem C7_second_store_overwrites_counterexample :
    dictAssign (dictAssign ([] : List (AgentName × FindingRecord))
        AgentName.Database_Agent dbEnrichmentRec)
      AgentName.Database_Agent dbTradeRec
      = [(AgentName.Database_Agent, dbTradeRec)]
    ∧ dbEnrichmentRec ≠ dbTradeRec
    ∧ dictFind (dictAssign (dictAssign ([] : List (AgentName × FindingRecord))
          AgentName.Database_Agent dbEnrichmentRec)
        AgentName.Database_Agent dbTradeRec) AgentName.Database_Agent
        ≠ some dbEnrichmentRec := by
  refine ⟨by decide, by decide, by decide⟩

/-- C7 amended: the per-phase findings map is keyed by worker identity
alone; a store never deletes or alters another worker's entry (and the
update_dict channel merge of a single-worker store is exactly this
assignment), but it does replace the same worker's previous record, so
when a worker runs twice in one phase only the latest FindingRecord
survives. -/
theorem C7_findings_store_amended :
    (∀ (m : List (AgentName × FindingRecord)) (k k' : AgentName)
       (v : FindingRecord), k' ≠ k →
       dictFind (dictAssign m k v) k' = dictFind m k')
    ∧ (∀ (m : List (AgentName × FindingRecord)) (k : AgentName)
       (v : FindingRecord), dictFind (dictAssign m k v) k = some v)
    ∧ (∀ (l : List (AgentName × FindingRecord)) (k : AgentName)
       (v : FindingRecord), update_dict l [(k, v)] = dictAssign l k v) :=
  ⟨fun m k k' v h => dictFind_assign_ne m k k' v h,
   fun m k v => dictFind_assign_self m k v,
   fun _ _ _ => rfl⟩

theorem C7_findings_store_amended_witness :
    dictFind (dictAssign [(AgentName.Splunk_Agent, splunkRec true)]
        AgentName.Database_Agent dbTradeRec) AgentName.Splunk_Agent =
      some (splunkRec true)
    ∧ dictFind (dictAssign [(AgentName.Splunk_Agent, splunkRec true)]
        AgentName.Database_Agent dbTradeRec) AgentName.Database_Agent =
      some dbTradeRec := by
  constructor
  · rw [C7_findings_store_amended.1 _ _ _ _ (by decide)]
    decide
  · exact C7_findings_store_amended.2.1 _ _ _

end PricingAgent
